import Mathlib

/-!
# Verification of the LabMate two-stage retrieval-and-reranking core

Shallow embedding of the similarity package of the Inha-LabMate backend
(`src/similarity/`): the stage-1 candidate generator (BM25 + semantic + domain
taxonomy score fusion with negative filtering), the similarity measures
(sentence, categorical, numeric), the reranking scorer and its validated
weight configuration.

Conventions of the embedding:
* Python floats are modelled as `ℚ`; the external transcendental `log1p` is an
  abstract parameter of the score normalizer.
* The external embedding model is modelled as an arbitrary function from text
  to vectors (`List ℚ`), with cosine similarity as the dot product of the
  returned vectors, exactly as the source computes it on L2-normalized output.
* Raising an exception is modelled by `Except.error`; a Python function that
  cannot raise is embedded as a total function.
-/

namespace LabMate

/-! ## Python string primitives -/

/-- Embedded `leadsWith pat s` : the character list `s` starts with `pat`. -/
def leadsWith : List Char → List Char → Bool
  | [], _ => true
  | _ :: _, [] => false
  | a :: as, b :: bs => a == b && leadsWith as bs

/-- Embedded `occursIn pat s` : `pat` occurs as a contiguous run inside `s`
(Python's `pat in s` on strings; the empty pattern always occurs). -/
def occursIn (pat : List Char) : List Char → Bool
  | [] => leadsWith pat []
  | c :: rest => leadsWith pat (c :: rest) || occursIn pat rest

/-- Python's substring test `pat in s`. -/
def strIn (pat s : String) : Bool := occursIn pat.toList s.toList

/-- Python's `str.lower()` (ASCII case folding; the Korean text in the corpus
has no case). -/
def pyLower (s : String) : String := String.mk (s.toList.map Char.toLower)

/-- Python's `str.upper()`. -/
def pyUpper (s : String) : String := String.mk (s.toList.map Char.toUpper)

/-- Tokenizer for `str.split()`: whitespace runs separate tokens, empty
pieces are dropped.  `acc` holds the current token reversed. -/
def wsTokens : List Char → List Char → List String
  | acc, [] => if acc.isEmpty then [] else [String.mk acc.reverse]
  | acc, c :: rest =>
    if c.isWhitespace then
      if acc.isEmpty then wsTokens [] rest
      else String.mk acc.reverse :: wsTokens [] rest
    else wsTokens (c :: acc) rest

/-- Python's `str.split()` with no separator. -/
def pySplitWS (s : String) : List String := wsTokens [] s.toList

/-- Splitter for `str.split(',')`: keeps empty pieces. -/
def commaTokens : List Char → List Char → List String
  | acc, [] => [String.mk acc.reverse]
  | acc, c :: rest =>
    if c = ',' then String.mk acc.reverse :: commaTokens [] rest
    else commaTokens (c :: acc) rest

/-- Python's `str.split(',')`. -/
def pySplitComma (s : String) : List String := commaTokens [] s.toList

/-- Python's `str.strip()` with no argument. -/
def pyStrip (s : String) : String :=
  String.mk (((s.toList.dropWhile Char.isWhitespace).reverse.dropWhile
    Char.isWhitespace).reverse)

/-- Embedded `" ".join(l)`. -/
def joinSpace : List String → String
  | [] => ""
  | [x] => x
  | x :: xs => x ++ " " ++ joinSpace xs

/-- Python dict `.get(key, default)` over an insertion-ordered association
list. -/
def pyDictGet (d : List (String × String)) (k dflt : String) : String :=
  ((d.lookup k).getD dflt)

/-- Value of a nonempty digit string, `none` if a non-digit appears. -/
def digitsVal : List Char → Option Nat
  | [] => none
  | cs =>
    if cs.all Char.isDigit then
      some (cs.foldl (fun n c => n * 10 + (c.toNat - 48)) 0)
    else none

/-- Python's `int(s)`: optional surrounding whitespace, optional sign, a
nonempty digit run.  (Numeric-literal underscores are not modelled.) -/
def pyParseInt (s : String) : Option Int :=
  match (pyStrip s).toList with
  | [] => none
  | '+' :: rest => (digitsVal rest).map Int.ofNat
  | '-' :: rest => (digitsVal rest).map (fun n => -(n : Int))
  | cs => (digitsVal cs).map Int.ofNat

/-- Digits of `ip.fp` (integer part, fraction part, fraction length), where
both parts are digit runs and at least one is nonempty. -/
def decimalDigits (ip fp : List Char) : Option (Nat × Nat × Nat) :=
  if ip.all Char.isDigit ∧ fp.all Char.isDigit ∧ (ip ≠ [] ∨ fp ≠ []) then
    some (ip.foldl (fun n c => n * 10 + (c.toNat - 48)) 0,
      fp.foldl (fun n c => n * 10 + (c.toNat - 48)) 0, fp.length)
  else none

/-- Split a character list at the first `.`, if any. -/
def splitAtDot (cs : List Char) : List Char × Option (List Char) :=
  match cs.findIdx? (· == '.') with
  | none => (cs, none)
  | some i => (cs.take i, some (cs.drop (i + 1)))

/-- Digit data of an unsigned Python float literal `d+`, `d+.d*`, `.d+`. -/
def unsignedFloatDigits (cs : List Char) : Option (Nat × Nat × Nat) :=
  match splitAtDot cs with
  | (ip, none) => decimalDigits ip []
  | (ip, some fp) => if occursIn ['.'] fp then none else decimalDigits ip fp

/-- Parsed shape of a Python float literal: sign and decimal digit data.
Kept free of `ℚ` so that parsing reduces in the kernel. -/
def parseFloatRep (s : String) : Option (Bool × Nat × Nat × Nat) :=
  match (pyStrip s).toList with
  | [] => none
  | '+' :: rest => (unsignedFloatDigits rest).map (fun d => (false, d))
  | '-' :: rest => (unsignedFloatDigits rest).map (fun d => (true, d))
  | cs => (unsignedFloatDigits cs).map (fun d => (false, d))

/-- Rational value of a parsed float. -/
def floatRepVal : Bool × Nat × Nat × Nat → ℚ
  | (neg, ip, fp, fpl) => (if neg then -1 else 1) * ((ip : ℚ) + (fp : ℚ) / 10 ^ fpl)

/-- Python's `float(s)` restricted to plain decimal notation (the only shape
the GPA fields use; exponent/`inf`/`nan` forms are not modelled and parse to
`none`). -/
def pyParseFloat (s : String) : Option ℚ :=
  (parseFloatRep s).map floatRepVal

/-- Embedded `np.min` over a score list (the source never takes it on an empty array in
the runs we model; `0` is a junk value for the empty case). -/
def listMin : List ℚ → ℚ
  | [] => 0
  | x :: xs => xs.foldl min x

/-- Embedded `np.max` over a score list. -/
def listMax : List ℚ → ℚ
  | [] => 0
  | x :: xs => xs.foldl max x

/-- Decidable equality for `Except`, used to evaluate concrete runs. -/
instance {ε α : Type _} [DecidableEq ε] [DecidableEq α] : DecidableEq (Except ε α) := fun
  | .ok a, .ok b =>
    if h : a = b then .isTrue (h ▸ rfl) else .isFalse (fun hh => h (Except.ok.inj hh))
  | .ok _, .error _ => .isFalse Except.noConfusion
  | .error _, .ok _ => .isFalse Except.noConfusion
  | .error e, .error f =>
    if h : e = f then .isTrue (h ▸ rfl) else .isFalse (fun hh => h (Except.error.inj hh))

/-! ## `base.py`: similarity results -/

/-- Python exceptions raised by the similarity package. -/
inductive PyErr where
  | valueError (msg : String)
  | attributeError (attr : String)
deriving DecidableEq, Repr

/-- Embedded `SimilarityResult` of `base.py` (the explainability `details` map carries
no score information and is omitted). -/
structure SimilarityResult where
  score : ℚ
  method : String
deriving DecidableEq, Repr

/-- Embedded `SimilarityResult.__post_init__`: constructing with a score outside
`[0, 1]` raises `ValueError`; an in-range score is stored unchanged. -/
def mkSimilarityResult (score : ℚ) (method : String) : Except PyErr SimilarityResult :=
  if 0 ≤ score ∧ score ≤ 1 then .ok ⟨score, method⟩
  else .error (.valueError "Score must be between 0.0 and 1.0")

/-! ## `numeric_similarity.py` -/

/-- Embedded `LanguageScoreSimilarity.OPIC_GRADES`. -/
def OPIC_GRADES : List (String × Int) :=
  [("AL", 990), ("IH", 900), ("IM3", 850), ("IM2", 800), ("IM1", 750),
   ("IL", 700), ("NH", 650), ("NM", 600), ("NL", 550)]

/-- Embedded `LanguageScoreSimilarity._parse_score`: strip, try `int()`, then the OPIc
grade table on the upper-cased string. -/
def parseScore (s : String) : Option Int :=
  let t := pyStrip s
  match pyParseInt t with
  | some n => some n
  | none => OPIC_GRADES.lookup (pyUpper t)

/-- Embedded `LanguageScoreSimilarity.calculate` (the configured threshold fields are
never read by `calculate`; only the two parsed scores matter). -/
def langCalc (t1 t2 : String) : Except PyErr SimilarityResult :=
  match parseScore t1, parseScore t2 with
  | some s1, some s2 =>
    if s1 ≥ s2 then mkSimilarityResult 1 "above_requirement"
    else
      let r : ℚ := if s2 > 0 then (s1 : ℚ) / (s2 : ℚ) else 0
      mkSimilarityResult (if r < 7/10 then 0 else (r - 7/10) / (3/10)) "linear_decay"
  | _, _ => mkSimilarityResult 0 "invalid_score"

/-- Embedded `LanguageProficiencySimilarity.PROFICIENCY_LEVELS` in insertion order. -/
def PROFICIENCY_LEVELS : List (String × ℚ) :=
  [("상", 1), ("중상", 85/100), ("중", 7/10), ("중하", 55/100), ("하", 4/10),
   ("native", 1), ("fluent", 1), ("advanced", 85/100),
   ("intermediate", 7/10), ("beginner", 4/10)]

/-- Embedded `LanguageProficiencySimilarity._get_level_score`: the first table entry
whose key occurs in the stripped lower-cased input, or vice versa. -/
def getLevel (s : String) : Option ℚ :=
  let t := pyLower (pyStrip s)
  (PROFICIENCY_LEVELS.find? (fun kv =>
    strIn (pyLower kv.1) t || strIn t (pyLower kv.1))).map Prod.snd

/-- Embedded `LanguageProficiencySimilarity.calculate`. -/
def profCalc (t1 t2 : String) : Except PyErr SimilarityResult :=
  match getLevel t1, getLevel t2 with
  | some l1, some l2 =>
    if l1 ≥ l2 then mkSimilarityResult 1 "meets_requirement"
    else
      let gap := l2 - l1
      mkSimilarityResult
        (if gap ≤ 15/100 then 9/10
         else if gap ≤ 3/10 then 7/10
         else if gap ≤ 45/100 then 4/10
         else 0) "ordinal_similarity"
  | _, _ => mkSimilarityResult 0 "unknown_level"

/-- Core of `GPASimilarity.calculate` after both GPAs parsed. -/
def gpaCore (g1 g2 : ℚ) : Except PyErr SimilarityResult :=
  if ¬(0 ≤ g1 ∧ g1 ≤ 9/2) then mkSimilarityResult 0 "gpa_out_of_range"
  else if g1 ≥ g2 then mkSimilarityResult 1 "above_expectation"
  else
    let gap := g2 - g1
    mkSimilarityResult (if gap > 1/2 then 0 else 1 - gap / (1/2)) "distance_based"

/-- Embedded `GPASimilarity.calculate` on two strings; an empty second argument falls
back to the instance's expected GPA, a nonempty unparseable one raises
`ValueError` inside the `try`, caught as `invalid_gpa`. -/
def gpaCalc (expectedGpa : ℚ) (t1 t2 : String) : Except PyErr SimilarityResult :=
  match pyParseFloat t1, (if t2 = "" then some expectedGpa else pyParseFloat t2) with
  | some g1, some g2 => gpaCore g1 g2
  | _, _ => mkSimilarityResult 0 "invalid_gpa"

/-- Embedded `GPASimilarity.calculate` as the scorer invokes it (line 291): the second
argument is `str(default_expected_gpa)`, and `float(str(x))` round-trips, so
the reference value is the configured expected GPA itself. -/
def gpaCalcVal (expected : ℚ) (t1 : String) : Except PyErr SimilarityResult :=
  match pyParseFloat t1 with
  | none => mkSimilarityResult 0 "invalid_gpa"
  | some g1 => gpaCore g1 expected

/-! ## `keyword_similarity.py` -/

/-- Embedded `MajorSimilarity.MAJOR_GROUPS`. -/
def MAJOR_GROUPS : List (String × List String) :=
  [("컴퓨터", ["컴퓨터공학", "소프트웨어", "인공지능", "데이터사이언스"]),
   ("전기전자", ["전기공학", "전자공학", "전기전자공학", "제어계측"]),
   ("기계", ["기계공학", "기계설계", "자동차공학", "항공우주"]),
   ("화학생명", ["화학공학", "생명공학", "환경공학", "신소재"]),
   ("경영경제", ["경영학", "경제학", "회계학", "금융학"])]

/-- The reverse map built in `MajorSimilarity.__init__` (major name → group). -/
def majorToGroup (major : String) : Option String :=
  (MAJOR_GROUPS.find? (fun g => g.2.contains major)).map Prod.fst

/-- Groups counted as engineering by `MajorSimilarity.calculate`. -/
def engineeringGroups : List String := ["컴퓨터", "전기전자", "기계", "화학생명"]

/-- Embedded `MajorSimilarity.calculate`: exact match 1.0, same group 0.8, substring
containment 0.6, both engineering groups 0.5, otherwise 0.0. -/
def majorCalc (t1 t2 : String) : Except PyErr SimilarityResult :=
  let m1 := pyStrip t1
  let m2 := pyStrip t2
  if m1 = m2 then mkSimilarityResult 1 "exact_match"
  else
    let g1 := majorToGroup m1
    let g2 := majorToGroup m2
    if g1.isSome ∧ g2.isSome ∧ g1 = g2 then mkSimilarityResult (8/10) "same_group"
    else if strIn m1 m2 || strIn m2 m1 then mkSimilarityResult (6/10) "partial_match"
    else if g1.isSome ∧ g2.isSome ∧
        (g1.getD "") ∈ engineeringGroups ∧ (g2.getD "") ∈ engineeringGroups then
      mkSimilarityResult (5/10) "related_engineering"
    else mkSimilarityResult 0 "no_match"

/-- Embedded `CertificationSimilarity.CERT_WEIGHTS` in insertion order. -/
def CERT_WEIGHTS : List (String × ℚ) :=
  [("기사", 1), ("산업기사", 7/10), ("기능사", 5/10), ("민간자격", 3/10)]

/-- Embedded `CertificationSimilarity._get_cert_weight`: first table key occurring in
the certification name, default 0.3. -/
def certWeightOf (cert : String) : ℚ :=
  ((CERT_WEIGHTS.find? (fun kv => strIn kv.1 cert)).map Prod.snd).getD (3/10)

/-- Comma-split, stripped, nonempty items of a list-valued text field. -/
def commaItems (s : String) : List String :=
  ((pySplitComma s).map pyStrip).filter (fun c => c ≠ "")

/-- Token-set Jaccard count data for two token lists (intersection size,
union size), with set semantics via `dedup`. -/
def setJaccardData (l1 l2 : List String) : Nat × Nat :=
  let s1 := l1.dedup
  let s2 := l2.dedup
  ((s1.filter (fun w => w ∈ s2)).length, (s1 ++ s2.filter (fun w => w ∉ s1)).length)

/-- Textual match score of one subject certification against one reference
certification (`CertificationSimilarity.calculate` inner loop): exact 1.0,
substring 0.7, else word-overlap Jaccard (0.0 when no shared word). -/
def certMatchScore (cert1 cert2 : String) : ℚ :=
  if cert1 = cert2 then 1
  else if strIn cert1 cert2 || strIn cert2 cert1 then 7/10
  else
    let d := setJaccardData (pySplitWS cert1) (pySplitWS cert2)
    if d.1 ≠ 0 then (d.1 : ℚ) / (d.2 : ℚ) else 0

/-- Embedded `CertificationSimilarity.calculate`: per subject certification, the best
grade-weighted match among reference certifications; final score the mean. -/
def certCalc (t1 t2 : String) : Except PyErr SimilarityResult :=
  let certs1 := commaItems t1
  let certs2 := commaItems t2
  if certs1 = [] ∨ certs2 = [] then mkSimilarityResult 0 "empty_lists"
  else
    let weighted := certs1.map (fun c1 =>
      certs2.foldl (fun best c2 => max best (certMatchScore c1 c2 * certWeightOf c1)) 0)
    mkSimilarityResult (weighted.sum / (weighted.length : ℚ)) "weighted_jaccard"

/-- Embedded `AwardSimilarity._jaccard_similarity`. -/
def awardJaccard (t1 t2 : String) : Except PyErr SimilarityResult :=
  let w1 := (pySplitWS (pyLower t1)).dedup
  let w2 := (pySplitWS (pyLower t2)).dedup
  if w1 = [] ∨ w2 = [] then mkSimilarityResult 0 "jaccard_empty"
  else
    let d := setJaccardData w1 w2
    mkSimilarityResult (if d.2 ≠ 0 then (d.1 : ℚ) / (d.2 : ℚ) else 0) "jaccard"

/-- Embedded `AwardSimilarity.calculate`.  The TF-IDF cosine of long texts is an
external computation (`sklearn`), modelled as a parameter `tfidfCos`;
`none` models the `except` fallback to Jaccard. -/
def awardCalc (tfidfCos : String → String → Option ℚ) (t1 t2 : String) :
    Except PyErr SimilarityResult :=
  if ((t1.length : ℚ) + (t2.length : ℚ)) / 2 > 20 then
    match tfidfCos t1 t2 with
    | some c => mkSimilarityResult c "tfidf_cosine"
    | none => awardJaccard t1 t2
  else awardJaccard t1 t2

/-- Embedded `TechStackSimilarity.calculate`.  The mean-embedding cosine of the two
term lists is external, modelled as a parameter `embCos`. -/
def techCalc (embCos : String → String → ℚ) (jaccardWeight embeddingWeight : ℚ)
    (t1 t2 : String) : Except PyErr SimilarityResult :=
  let techs1 := (commaItems (pyLower t1))
  let techs2 := (commaItems (pyLower t2))
  if techs1 = [] ∨ techs2 = [] then mkSimilarityResult 0 "empty_stacks"
  else
    let d := setJaccardData techs1 techs2
    let jac : ℚ := (d.1 : ℚ) / (d.2 : ℚ)
    mkSimilarityResult (jac * jaccardWeight + embCos t1 t2 * embeddingWeight)
      "jaccard_embedding_hybrid"

/-! ## `sentence_similarity.py` -/

/-- Dot product of two embedding vectors. -/
def vecDot (v w : List ℚ) : ℚ := (List.zipWith (fun a b => a * b) v w).sum

/-- A unit (L2-normalized) vector: its dot product with itself is 1. -/
def isUnitVec (v : List ℚ) : Prop := vecDot v v = 1

/-- The external pretrained model and the external numeric pipelines built on
it, as seen by the similarity measures:
* `encode` is the text-to-unit-vector map (`SentenceTransformer.encode` with
  `normalize_embeddings=True`);
* `portCos` is the mean-pooled re-normalized chunk cosine computed by
  `PortfolioSimilarity.calculate` (its normalization needs square roots, so
  the whole external numeric path is one abstract function);
* `techCos` is the mean-embedding cosine of `TechStackSimilarity.calculate`;
* `tfidfCos` is sklearn's TF-IDF cosine used by `AwardSimilarity`. -/
structure EncoderModel where
  encode : String → List ℚ
  portCos : String → String → ℚ := fun _ _ => 0
  techCos : String → String → ℚ := fun _ _ => 0
  tfidfCos : String → String → Option ℚ := fun _ _ => none

/-- An encoder returning opposite one-dimensional unit vectors for the query
and the passage text: a legitimate model output on which the sentence cosine
is −1. -/
def encNeg : EncoderModel :=
  { encode := fun s => if s = "query: a" then [1] else [-1] }

/-- A trivial encoder model, used where no encoder-dependent branch runs. -/
def encZero : EncoderModel := { encode := fun _ => [] }

/-- Embedded `SentenceSimilarity.calculate`: optional E5 role markers, then the raw
cosine (dot product of normalized embeddings) is passed to the result
constructor unchanged. -/
def sentenceCalc (enc : EncoderModel) (modelName : String) (roleMark : Bool)
    (t1 t2 : String) : Except PyErr SimilarityResult :=
  let tag := roleMark && strIn "e5" (pyLower modelName)
  let a := if tag then "query: " ++ t1 else t1
  let b := if tag then "passage: " ++ t2 else t2
  mkSimilarityResult (vecDot (enc.encode a) (enc.encode b)) "cosine_similarity"

/-- Embedded `SentenceSimilarityWithKeyword.calculate`: blend of the sentence cosine
and the token-set Jaccard overlap. -/
def sentenceKeywordCalc (enc : EncoderModel) (modelName : String)
    (keywordWeight : ℚ) (t1 t2 : String) : Except PyErr SimilarityResult := do
  let sres ← sentenceCalc enc modelName true t1 t2
  let k1 := (pySplitWS (pyLower t1)).dedup
  let k2 := (pySplitWS (pyLower t2)).dedup
  let overlap : ℚ :=
    if k1.length = 0 ∨ k2.length = 0 then 0
    else
      let d := setJaccardData k1 k2
      if d.2 ≠ 0 then (d.1 : ℚ) / (d.2 : ℚ) else 0
  mkSimilarityResult (sres.score * (1 - keywordWeight) + overlap * keywordWeight)
    "sentence_with_keyword"

/-- Embedded `PortfolioSimilarity.calculate`: chunking, per-chunk encoding,
mean-pooling and re-normalization all happen in the external numeric path,
abstracted as `enc.portCos`. -/
def portfolioCalc (enc : EncoderModel) (t1 t2 : String) : Except PyErr SimilarityResult :=
  mkSimilarityResult (enc.portCos t1 t2) "mean_pooled_cosine"

/-! ## `candidate_generator.py` -/

/-- The Korean/English stopword set. -/
def STOPWORDS : List String :=
  ["연구", "개발", "시스템", "기술", "응용", "분석", "설계", "구현",
   "이론", "기반", "관련", "등", "및", "를", "을", "는", "은", "이", "가",
   "의", "에", "와", "과", "도", "로", "으로", "부터", "까지", "연구실",
   "랩", "lab", "그룹", "group",
   "research", "development", "system", "systems", "technology",
   "application", "applications", "analysis", "design", "implementation",
   "theory", "based", "and", "or", "the", "a", "an", "of", "for",
   "in", "on", "at", "to", "from", "with", "laboratory"]

/-- Embedded `tokenize_with_stopwords`: lower-case whitespace tokens with stopwords
removed. -/
def tokenizeWithStopwords (text : String) : List String :=
  (pySplitWS (pyLower text)).filter (fun t => t ∉ STOPWORDS)

/-- The domain keyword dictionary `RESEARCH_KEYWORDS`
(category name, term variants, category weight). -/
def RESEARCH_KEYWORDS : List (String × List String × ℚ) :=
  [("AI/ML",
    ["ai", "인공지능", "artificial intelligence",
     "machine learning", "머신러닝", "기계학습", "ml",
     "deep learning", "딥러닝", "심층학습", "dl",
     "neural network", "신경망", "deep neural"], 1),
   ("컴퓨터비전",
    ["computer vision", "컴퓨터 비전", "컴퓨터비전",
     "cv", "영상처리", "image processing", "이미지 처리",
     "object detection", "객체 탐지", "객체 검출",
     "image recognition", "이미지 인식", "영상 인식",
     "visual", "비전"], 1),
   ("로봇/자율주행",
    ["robot", "로봇", "robotics", "로보틱스",
     "autonomous", "자율주행", "self-driving", "자율 주행",
     "slam", "navigation", "내비게이션", "spatial"], 1),
   ("NLP/대화",
    ["nlp", "natural language", "자연어", "자연어처리",
     "language model", "언어 모델", "text", "텍스트",
     "chatbot", "챗봇", "dialogue", "대화", "대화형",
     "conversational", "speech", "음성"], 1),
   ("제어",
    ["control", "제어", "control system", "제어시스템",
     "optimization", "최적화", "fuzzy"], 9/10),
   ("전력/에너지",
    ["power", "전력", "energy", "에너지",
     "smart grid", "스마트 그리드", "스마트그리드",
     "power system", "전력 시스템", "전력망",
     "microgrid", "마이크로그리드"], 1),
   ("반도체",
    ["semiconductor", "반도체", "device", "소자",
     "vlsi", "ic", "integrated circuit", "집적회로",
     "transistor", "트랜지스터"], 9/10),
   ("통신/네트워크",
    ["communication", "통신", "network", "네트워크",
     "5g", "6g", "wireless", "무선", "iot"], 1),
   ("신호처리",
    ["signal processing", "신호처리", "신호 처리",
     "dsp", "filtering", "필터링"], 8/10)]

/-- Per-category score of `keyword_match_score` (lines 114–115):
`min(match_ratio * 3, 1.0) * weight` with
`match_ratio = |candidate-side matches| / |terms|`. -/
def catRatioScore (terms : List String) (weight : ℚ) (labLower : String) : ℚ :=
  let labMatches := terms.filter (fun t => strIn t labLower)
  min ((labMatches.length : ℚ) / (terms.length : ℚ) * 3) 1 * weight

/-- Loop body of `keyword_match_score`: accumulate the category score and the
matched category name when variants appear on both sides. -/
def kmsStep (ql ll : String) (acc : ℚ × List String) (c : String × List String × ℚ) :
    ℚ × List String :=
  if c.2.1.filter (fun t => strIn t ql) ≠ [] then
    if c.2.1.filter (fun t => strIn t ll) ≠ [] then
      (acc.1 + catRatioScore c.2.1 c.2.2 ll, acc.2 ++ [c.1])
    else acc
  else acc

/-- Embedded `keyword_match_score`: domain-taxonomy match score of a query against a
candidate text. -/
def keywordMatchScore (query labText : String) : ℚ :=
  let ql := pyLower query
  let ll := pyLower labText
  let r := RESEARCH_KEYWORDS.foldl (kmsStep ql ll) (0, [])
  if r.2 ≠ [] then min (r.1 / (r.2.length : ℚ)) 1 else 0

/-- A category has variants appearing in the (lower-cased) query and variants
appearing in the (lower-cased) candidate text. -/
def bothSidesMatch (ql ll : String) (c : String × List String × ℚ) : Prop :=
  c.2.1.filter (fun t => strIn t ql) ≠ [] ∧ c.2.1.filter (fun t => strIn t ll) ≠ []

instance (ql ll : String) (c : String × List String × ℚ) :
    Decidable (bothSidesMatch ql ll c) := by
  unfold bothSidesMatch
  infer_instance

/-- The categories matched on both sides, with their term lists and weights
(the categories `keyword_match_score` averages over). -/
def matchedCategories (query labText : String) : List (String × List String × ℚ) :=
  RESEARCH_KEYWORDS.filter (fun c => bothSidesMatch (pyLower query) (pyLower labText) c)

/-- Embedded `get_query_categories` (as an ordered duplicate-free list standing for the
Python set). -/
def getQueryCategories (query : String) : List String :=
  let ql := pyLower query
  (RESEARCH_KEYWORDS.filter (fun c => c.2.1.any (fun t => strIn t ql))).map Prod.fst

/-- Embedded `get_lab_categories`. -/
def getLabCategories (labText : String) : List String :=
  let ll := pyLower labText
  (RESEARCH_KEYWORDS.filter (fun c => c.2.1.any (fun t => strIn t ll))).map Prod.fst

/-- The stage-1 `Lab` dataclass (`candidate_generator.py` lines 148–160). -/
structure Lab where
  id : String
  name : String
  professor : String
  description : String
  homepage : String := ""
  location : String := ""
deriving DecidableEq, Inhabited, Repr

/-- The field names the stage-1 `Lab` dataclass declares. -/
def Lab.fieldNames : List String :=
  ["id", "name", "professor", "description", "homepage", "location"]

/-- Embedded `Lab.get_search_text`: name + description. -/
def labSearchText (lab : Lab) : String := lab.name ++ " " ++ lab.description

/-- Embedded `CandidateGenerator._normalize_keyword_scores`: `log1p`, then min-max to
`[0,1]`; an (almost) constant score vector maps to all zeros.  `l1p` is the
external transcendental `np.log1p`. -/
def normalizeKeywordScores (l1p : ℚ → ℚ) (scores : List ℚ) : List ℚ :=
  let logs := scores.map l1p
  let mn := listMin logs
  let mx := listMax logs
  if mx - mn < 1/100000000 then scores.map (fun _ => 0)
  else logs.map (fun x => (x - mn) / (mx - mn))

/-- Embedded `CandidateGenerator._rescale_semantic_scores`: zero out scores below the
floor, then min-max rescale the surviving (nonzero) ones; if the survivors
are (almost) equal they all become 0.5. -/
def rescaleSemanticScores (threshold : ℚ) (scores : List ℚ) : List ℚ :=
  let filtered := scores.map (fun s => if s ≥ threshold then s else 0)
  let nonzero := filtered.filter (fun s => s > 0)
  if nonzero = [] then filtered
  else
    let mn := listMin nonzero
    let mx := listMax nonzero
    if mx - mn < 1/100000000 then filtered.map (fun s => if s > 0 then 1/2 else s)
    else filtered.map (fun s => if s > 0 then (s - mn) / (mx - mn) else s)

/-- Embedded `CandidateGenerator._filter_irrelevant_labs`: `false` means the candidate
is dropped.  With negative filtering on, a candidate whose category set is
nonempty and disjoint from the query's nonempty category set survives only on
a combined score of at least 0.8. -/
def filterIrrelevantLabs (useNegativeFiltering : Bool) (query : String) (lab : Lab)
    (combinedScore : ℚ) : Bool :=
  if !useNegativeFiltering then true
  else
    let qc := getQueryCategories query
    let lc := getLabCategories (labSearchText lab)
    if qc ≠ [] ∧ lc ≠ [] then
      if qc.all (fun c => c ∉ lc) then
        if combinedScore < 8/10 then false else true
      else true
    else true

/-- One candidate's score breakdown (the per-item dict built by
`get_candidates_with_scores`). -/
structure CandScores where
  keywordScore : ℚ := 0
  semanticScore : ℚ := 0
  domainScore : ℚ := 0
  combinedScore : ℚ := 0
  sources : List String := []
deriving DecidableEq, Repr

/-- Python dict assignment `d[k] = v` over an insertion-ordered association
list: overwrite in place if the key exists, else append. -/
def dictInsert (d : List (String × CandScores)) (k : String) (v : CandScores) :
    List (String × CandScores) :=
  if d.any (fun p => p.1 = k) then d.map (fun p => if p.1 = k then (k, v) else p)
  else d ++ [(k, v)]

/-- Per-index loop body of `get_candidates_with_scores` steps 4–5: effective
keyword score (domain-first blend when the domain score clears 0.3), combined
score, negative filtering, minimal floor, source tags. -/
def gcwsStep (keywordWeight semanticWeight : ℚ) (useDomainKeywords useNegativeFiltering : Bool)
    (query : String) (kwNorm semRescaled domainScores : List ℚ) (labs : List Lab)
    (acc : List (String × CandScores)) (idx : Nat) : List (String × CandScores) :=
  let lab := labs.getD idx default
  let keywordScore := kwNorm.getD idx 0
  let semanticScore := semRescaled.getD idx 0
  let domainScore := domainScores.getD idx 0
  let effectiveKeyword :=
    if useDomainKeywords ∧ domainScore > 3/10 then
      domainScore * (7/10) + keywordScore * (3/10)
    else keywordScore
  let combinedScore := effectiveKeyword * keywordWeight + semanticScore * semanticWeight
  if !filterIrrelevantLabs useNegativeFiltering query lab combinedScore then acc
  else if combinedScore > 1/20 then
    dictInsert acc lab.id
      { keywordScore := keywordScore, semanticScore := semanticScore,
        domainScore := domainScore, combinedScore := combinedScore,
        sources := (if effectiveKeyword > 1/10 then ["keyword"] else []) ++
          (if semanticScore > 1/10 then ["semantic"] else []) }
  else acc

/-- Embedded `CandidateGenerator.get_candidates_with_scores`.  The external signals
enter as arguments: `keywordRaw` is `bm25.get_scores(tokenize_with_stopwords
(query))`, `semRaw` the per-lab cosines of the query embedding against the
precomputed lab embeddings, and `l1p` is `np.log1p`.  Returns the sorted
top-K association list (Python preserves dict insertion order; `sorted` is
stable, descending on combined score). -/
def getCandidatesWithScores (keywordWeight semanticWeight : ℚ)
    (useDomainKeywords useNegativeFiltering : Bool) (l1p : ℚ → ℚ) (labs : List Lab)
    (query : String) (keywordRaw semRaw : List ℚ) (finalTopK : Nat) :
    List (String × CandScores) :=
  let kwNorm := normalizeKeywordScores l1p keywordRaw
  let semRescaled := rescaleSemanticScores (7/10) semRaw
  let domainScores := labs.map (fun lab =>
    if useDomainKeywords then keywordMatchScore query (labSearchText lab) else 0)
  let results := (List.range labs.length).foldl
    (gcwsStep keywordWeight semanticWeight useDomainKeywords useNegativeFiltering
      query kwNorm semRescaled domainScores labs) []
  (results.mergeSort (fun a b => b.2.combinedScore ≤ a.2.combinedScore)).take finalTopK

/-! ## `config.py` -/

/-- Embedded `SentenceSimilarityConfig` (weight fields and the parameters the scorer
reads; the E5 role-marker flag defaults to on and the scorer always passes
it as on, so it is not carried). -/
structure SentenceSimilarityConfig where
  modelName : String := "intfloat/multilingual-e5-large"
  intro1Weight : ℚ := 3/10
  intro2Weight : ℚ := 25/100
  intro3Weight : ℚ := 2/10
  portfolioWeight : ℚ := 25/100
  keywordOverlapWeight : ℚ := 3/10
deriving DecidableEq, Repr

/-- Embedded `KeywordSimilarityConfig` (weight fields; the rule-score and grade-weight
tables are class constants of the measures, embedded there). -/
structure KeywordSimilarityConfig where
  majorWeight : ℚ := 35/100
  certificationWeight : ℚ := 25/100
  awardWeight : ℚ := 2/10
  techStackWeight : ℚ := 2/10
  techJaccardWeight : ℚ := 6/10
  techEmbeddingWeight : ℚ := 4/10
deriving DecidableEq, Repr

/-- Embedded `NumericSimilarityConfig` (weight fields and the expected GPA the scorer
reads; the TOEIC/OPIc tables are class constants of the measures). -/
structure NumericSimilarityConfig where
  languageScoreWeight : ℚ := 3/10
  proficiencyWeight : ℚ := 3/10
  gpaWeight : ℚ := 4/10
  defaultExpectedGpa : ℚ := 7/2
deriving DecidableEq, Repr

/-- Embedded `ScorerConfig`. -/
structure ScorerConfig where
  sentenceWeight : ℚ := 6/10
  keywordWeight : ℚ := 3/10
  numericWeight : ℚ := 1/10
  sentence : SentenceSimilarityConfig := {}
  keyword : KeywordSimilarityConfig := {}
  numeric : NumericSimilarityConfig := {}
  minScoreThreshold : ℚ := 3/10
deriving DecidableEq, Repr

/-- Embedded `ScorerConfig.create_default` / the `DEFAULT_CONFIG` singleton. -/
def defaultScorerConfig : ScorerConfig := {}

/-- Embedded `ScorerConfig.validate`: each of the four weight groups must sum to 1.0
within the hard-coded tolerance `[0.99, 1.01]`, checked in order; the first
failing group raises `ValueError`. -/
def ScorerConfig.validate (c : ScorerConfig) : Except PyErr Bool :=
  let total := c.sentenceWeight + c.keywordWeight + c.numericWeight
  if ¬(99/100 ≤ total ∧ total ≤ 101/100) then
    .error (.valueError "Total weight must be 1.0")
  else
    let sentenceTotal := c.sentence.intro1Weight + c.sentence.intro2Weight +
      c.sentence.intro3Weight + c.sentence.portfolioWeight
    if ¬(99/100 ≤ sentenceTotal ∧ sentenceTotal ≤ 101/100) then
      .error (.valueError "Sentence weights must sum to 1.0")
    else
      let keywordTotal := c.keyword.majorWeight + c.keyword.certificationWeight +
        c.keyword.awardWeight + c.keyword.techStackWeight
      if ¬(99/100 ≤ keywordTotal ∧ keywordTotal ≤ 101/100) then
        .error (.valueError "Keyword weights must sum to 1.0")
      else
        let numericTotal := c.numeric.languageScoreWeight + c.numeric.proficiencyWeight +
          c.numeric.gpaWeight
        if ¬(99/100 ≤ numericTotal ∧ numericTotal ≤ 101/100) then
          .error (.valueError "Numeric weights must sum to 1.0")
        else .ok true

/-! ## `scorer.py` -/

/-- Embedded `StudentProfile` (the `portfolio` field is carried as `portfolioText`). -/
structure StudentProfile where
  intro1 : String := ""
  intro2 : String := ""
  intro3 : String := ""
  portfolioText : String := ""
  major : String := ""
  certifications : String := ""
  awards : String := ""
  techStack : String := ""
  toeicScore : String := ""
  opicGrade : String := ""
  koreanProficiency : String := ""
  englishProficiency : String := ""
  gpa : String := ""
deriving DecidableEq, Repr

/-- Embedded `RerankingScore` (the `portfolio_score` field is carried as
`portfolioSubScore`). -/
structure RerankingScore where
  labId : String
  labName : String
  sentenceScore : ℚ := 0
  keywordScore : ℚ := 0
  numericScore : ℚ := 0
  intro1Score : ℚ := 0
  intro2Score : ℚ := 0
  intro3Score : ℚ := 0
  portfolioSubScore : ℚ := 0
  majorScore : ℚ := 0
  certificationScore : ℚ := 0
  awardScore : ℚ := 0
  techStackScore : ℚ := 0
  languageScore : ℚ := 0
  proficiencyScore : ℚ := 0
  gpaScore : ℚ := 0
  finalScore : ℚ := 0
deriving DecidableEq, Repr

/-- Embedded `RerankingScorer` after `__init__` (holds the validated configuration;
the measure objects are stateless and embedded as functions). -/
structure RerankingScorer where
  config : ScorerConfig
deriving DecidableEq, Repr

/-- Embedded `RerankingScorer.__init__`: take the given configuration (or the default
singleton) and validate it; a validation failure propagates, so construction
fails and nothing is renormalized. -/
def mkRerankingScorer (config : Option ScorerConfig) : Except PyErr RerankingScorer :=
  let cfg := config.getD defaultScorerConfig
  match cfg.validate with
  | .ok _ => .ok ⟨cfg⟩
  | .error e => .error e

/-- Modelled from the spec: the lab record `RerankingScorer.score_lab`'s body
expects — a `CorpusEntity` with identity, display name, owner department and
per-category derived text sections (research, about, methods, projects,
vision, achievements, publications, technologies, requirements).  No such
type exists under `src/`: the scorer imports the stage-1 `Lab`, which lacks
`sections` and `department` (see `scoreLabStage1`); only the scorer's own
`__main__` test constructs labs of this shape. -/
structure ScorerLab where
  id : String
  name : String
  department : String := ""
  sections : List (String × String) := []
deriving DecidableEq, Repr

/-- Sub-score for `intro1` (scorer.py lines 198–200): sentence similarity of
the interest statement against research + about, 0.0 when the field is
empty. -/
def intro1Sub (cfg : ScorerConfig) (enc : EncoderModel) (student : StudentProfile)
    (lab : ScorerLab) : Except PyErr ℚ :=
  if student.intro1 ≠ "" then do
    let r ← sentenceCalc enc cfg.sentence.modelName true student.intro1
      (pyDictGet lab.sections "research" "" ++ " " ++ pyDictGet lab.sections "about" "")
    pure r.score
  else pure 0

/-- Sub-score for `intro2` (lines 202–208): sentence + keyword-overlap blend
against methods + projects. -/
def intro2Sub (cfg : ScorerConfig) (enc : EncoderModel) (student : StudentProfile)
    (lab : ScorerLab) : Except PyErr ℚ :=
  if student.intro2 ≠ "" then do
    let r ← sentenceKeywordCalc enc cfg.sentence.modelName
      cfg.sentence.keywordOverlapWeight student.intro2
      (pyDictGet lab.sections "methods" "" ++ " " ++ pyDictGet lab.sections "projects" "")
    pure r.score
  else pure 0

/-- Sub-score for `intro3` (lines 210–213): sentence similarity against the
vision section, falling back to about. -/
def intro3Sub (cfg : ScorerConfig) (enc : EncoderModel) (student : StudentProfile)
    (lab : ScorerLab) : Except PyErr ℚ :=
  if student.intro3 ≠ "" then do
    let r ← sentenceCalc enc cfg.sentence.modelName true student.intro3
      (pyDictGet lab.sections "vision" (pyDictGet lab.sections "about" ""))
    pure r.score
  else pure 0

/-- Sub-score for the portfolio (lines 215–222): long-form similarity against
all sections joined. -/
def portfolioSub (cfg : ScorerConfig) (enc : EncoderModel) (student : StudentProfile)
    (lab : ScorerLab) : Except PyErr ℚ :=
  if student.portfolioText ≠ "" then do
    let r ← portfolioCalc enc student.portfolioText (joinSpace (lab.sections.map Prod.snd))
    pure r.score
  else pure 0

/-- Sub-score for the major (lines 233–235): runs only when both sides are
nonempty. -/
def majorSub (cfg : ScorerConfig) (enc : EncoderModel) (student : StudentProfile)
    (lab : ScorerLab) : Except PyErr ℚ :=
  if student.major ≠ "" ∧ lab.department ≠ "" then do
    let r ← majorCalc student.major lab.department
    pure r.score
  else pure 0

/-- Sub-score for certifications (lines 237–244): neutral 0.5 when the
student lists certifications but the lab requirements section is empty. -/
def certSub (cfg : ScorerConfig) (enc : EncoderModel) (student : StudentProfile)
    (lab : ScorerLab) : Except PyErr ℚ :=
  if student.certifications ≠ "" then
    if pyDictGet lab.sections "requirements" "" ≠ "" then do
      let r ← certCalc student.certifications (pyDictGet lab.sections "requirements" "")
      pure r.score
    else pure (1/2 : ℚ)
  else pure 0

/-- Sub-score for awards (lines 246–252): achievements section with
publications fallback, neutral 0.5 when both are empty. -/
def awardSub (cfg : ScorerConfig) (enc : EncoderModel) (student : StudentProfile)
    (lab : ScorerLab) : Except PyErr ℚ :=
  if student.awards ≠ "" then
    if pyDictGet lab.sections "achievements" (pyDictGet lab.sections "publications" "")
        ≠ "" then do
      let r ← awardCalc enc.tfidfCos student.awards
        (pyDictGet lab.sections "achievements" (pyDictGet lab.sections "publications" ""))
      pure r.score
    else pure (1/2 : ℚ)
  else pure 0

/-- Sub-score for the tech stack (lines 254–265): technologies section with
methods fallback, neutral 0.5 when both are empty. -/
def techSub (cfg : ScorerConfig) (enc : EncoderModel) (student : StudentProfile)
    (lab : ScorerLab) : Except PyErr ℚ :=
  if student.techStack ≠ "" then
    if pyDictGet lab.sections "technologies" (pyDictGet lab.sections "methods" "") ≠ "" then do
      let r ← techCalc enc.techCos cfg.keyword.techJaccardWeight
        cfg.keyword.techEmbeddingWeight student.techStack
        (pyDictGet lab.sections "technologies" (pyDictGet lab.sections "methods" ""))
      pure r.score
    else pure (1/2 : ℚ)
  else pure 0

/-- Sub-score for the language test (lines 276–284): TOEIC against the
hard-coded "800", else OPIc against "IM2", else 0. -/
def langSub (cfg : ScorerConfig) (enc : EncoderModel) (student : StudentProfile)
    (lab : ScorerLab) : Except PyErr ℚ :=
  if student.toeicScore ≠ "" then do
    let r ← langCalc student.toeicScore "800"
    pure r.score
  else if student.opicGrade ≠ "" then do
    let r ← langCalc student.opicGrade "IM2"
    pure r.score
  else pure 0

/-- Sub-score for English proficiency (lines 286–288) against the hard-coded
requirement "중". -/
def profSub (cfg : ScorerConfig) (enc : EncoderModel) (student : StudentProfile)
    (lab : ScorerLab) : Except PyErr ℚ :=
  if student.englishProficiency ≠ "" then do
    let r ← profCalc student.englishProficiency "중"
    pure r.score
  else pure 0

/-- Sub-score for the GPA (lines 290–292). -/
def gpaSub (cfg : ScorerConfig) (enc : EncoderModel) (student : StudentProfile)
    (lab : ScorerLab) : Except PyErr ℚ :=
  if student.gpa ≠ "" then do
    let r ← gpaCalcVal cfg.numeric.defaultExpectedGpa student.gpa
    pure r.score
  else pure 0

/-- Body of `RerankingScorer.score_lab` (lines 189–308) over the lab shape it
expects: the eleven field sub-scores, the three tier aggregates and the final
weighted score.  Each similarity call can propagate the `SimilarityResult`
construction error (e.g. on a negative cosine), hence the `Except`. -/
def scoreLabBody (cfg : ScorerConfig) (enc : EncoderModel) (student : StudentProfile)
    (lab : ScorerLab) : Except PyErr RerankingScore := do
  let intro1Score ← intro1Sub cfg enc student lab
  let intro2Score ← intro2Sub cfg enc student lab
  let intro3Score ← intro3Sub cfg enc student lab
  let portfolioSubScore ← portfolioSub cfg enc student lab
  let sentenceScore := intro1Score * cfg.sentence.intro1Weight +
    intro2Score * cfg.sentence.intro2Weight + intro3Score * cfg.sentence.intro3Weight +
    portfolioSubScore * cfg.sentence.portfolioWeight
  let majorScore ← majorSub cfg enc student lab
  let certificationScore ← certSub cfg enc student lab
  let awardScore ← awardSub cfg enc student lab
  let techStackScore ← techSub cfg enc student lab
  let keywordScore := majorScore * cfg.keyword.majorWeight +
    certificationScore * cfg.keyword.certificationWeight +
    awardScore * cfg.keyword.awardWeight + techStackScore * cfg.keyword.techStackWeight
  let languageScore ← langSub cfg enc student lab
  let proficiencyScore ← profSub cfg enc student lab
  let gpaScore ← gpaSub cfg enc student lab
  let numericScore := languageScore * cfg.numeric.languageScoreWeight +
    proficiencyScore * cfg.numeric.proficiencyWeight + gpaScore * cfg.numeric.gpaWeight
  let finalScore := sentenceScore * cfg.sentenceWeight + keywordScore * cfg.keywordWeight +
    numericScore * cfg.numericWeight
  let result : RerankingScore :=
    { labId := lab.id, labName := lab.name, sentenceScore := sentenceScore,
      keywordScore := keywordScore, numericScore := numericScore,
      intro1Score := intro1Score, intro2Score := intro2Score, intro3Score := intro3Score,
      portfolioSubScore := portfolioSubScore, majorScore := majorScore,
      certificationScore := certificationScore, awardScore := awardScore,
      techStackScore := techStackScore, languageScore := languageScore,
      proficiencyScore := proficiencyScore, gpaScore := gpaScore, finalScore := finalScore }
  pure result

/-- Embedded `RerankingScorer.score_lab` as it stands in the repository, on the
stage-1 `Lab` the scorer imports (`from .candidate_generator import Lab`).
Line 189 builds the result from `lab.id` / `lab.name` (fields the dataclass
has), then line 192 reads `lab.sections`.  Python resolves attribute access
against the dataclass's declared fields, `Lab.fieldNames`; a name not among
them raises `AttributeError`, so the body never reaches the similarity
computations (nor the later `lab.department` read at line 233). -/
def scoreLabStage1 (student : StudentProfile) (lab : Lab) : Except PyErr RerankingScore :=
  if "sections" ∈ Lab.fieldNames then
    -- not reachable: the stage-1 dataclass declares no `sections` field, so
    -- in Python the attribute lookup below never succeeds
    .ok { labId := lab.id, labName := lab.name }
  else .error (.attributeError "sections")

/-! ## Shared helper lemmas -/

/-- An in-range score makes the result constructor succeed, storing the score
unchanged. -/
lemma mkSimilarityResult_ok {s : ℚ} (m : String) (h1 : 0 ≤ s) (h2 : s ≤ 1) :
    mkSimilarityResult s m = .ok ⟨s, m⟩ := by
  simp [mkSimilarityResult, h1, h2]

/-- An out-of-range score makes the result constructor raise. -/
lemma mkSimilarityResult_err {s : ℚ} (m : String) (h : ¬(0 ≤ s ∧ s ≤ 1)) :
    mkSimilarityResult s m = .error (.valueError "Score must be between 0.0 and 1.0") := by
  simp only [mkSimilarityResult, if_neg h]

/-- Embedded `langCalc` never raises, and its score is always in `[0, 1]`. -/
lemma langCalc_ok (t1 t2 : String) :
    ∃ r, langCalc t1 t2 = .ok r ∧ 0 ≤ r.score ∧ r.score ≤ 1 := by
  unfold langCalc
  cases h1 : parseScore t1 with
  | none => exact ⟨⟨0, "invalid_score"⟩, mkSimilarityResult_ok _ le_rfl (by norm_num), by norm_num⟩
  | some s1 =>
    cases h2 : parseScore t2 with
    | none => exact ⟨⟨0, "invalid_score"⟩, mkSimilarityResult_ok _ le_rfl (by norm_num), by norm_num⟩
    | some s2 =>
      dsimp only
      by_cases hge : s1 ≥ s2
      · exact ⟨⟨1, "above_requirement"⟩, by
          rw [if_pos hge]; exact mkSimilarityResult_ok _ (by norm_num) le_rfl, by norm_num⟩
      · rw [if_neg hge]
        set r : ℚ := if s2 > 0 then (s1 : ℚ) / (s2 : ℚ) else 0 with hr
        by_cases hlow : r < 7/10
        · exact ⟨⟨0, "linear_decay"⟩, by
            rw [if_pos hlow]; exact mkSimilarityResult_ok _ le_rfl (by norm_num), by norm_num⟩
        · have hr7 : 7/10 ≤ r := le_of_not_lt hlow
          have hs2 : (0 : Int) < s2 := by
            by_contra hs2
            rw [hr, if_neg hs2] at hr7
            norm_num at hr7
          have hlt : r < 1 := by
            rw [hr, if_pos hs2]
            rw [div_lt_one (by exact_mod_cast hs2)]
            exact_mod_cast lt_of_not_ge hge
          have hnn : 0 ≤ (r - 7/10) / (3/10) := by
            apply div_nonneg _ (by norm_num)
            linarith
          have hle : (r - 7/10) / (3/10) ≤ 1 := by
            rw [div_le_one (by norm_num : (0:ℚ) < 3/10)]
            linarith
          refine ⟨⟨(r - 7/10) / (3/10), "linear_decay"⟩, ?_, hnn, hle⟩
          rw [if_neg hlow]
          exact mkSimilarityResult_ok _ hnn hle

/-- Embedded `profCalc` never raises, and its score is always in `[0, 1]`. -/
lemma profCalc_ok (t1 t2 : String) :
    ∃ r, profCalc t1 t2 = .ok r ∧ 0 ≤ r.score ∧ r.score ≤ 1 := by
  unfold profCalc
  cases getLevel t1 with
  | none => exact ⟨⟨0, "unknown_level"⟩, mkSimilarityResult_ok _ le_rfl (by norm_num), by norm_num⟩
  | some l1 =>
    cases getLevel t2 with
    | none => exact ⟨⟨0, "unknown_level"⟩, mkSimilarityResult_ok _ le_rfl (by norm_num), by norm_num⟩
    | some l2 =>
      dsimp only
      by_cases hge : l1 ≥ l2
      · exact ⟨⟨1, "meets_requirement"⟩, by
          rw [if_pos hge]; exact mkSimilarityResult_ok _ (by norm_num) le_rfl, by norm_num⟩
      · rw [if_neg hge]
        split_ifs with g1 g2 g3
        · exact ⟨⟨9/10, "ordinal_similarity"⟩,
            mkSimilarityResult_ok _ (by norm_num) (by norm_num), by norm_num⟩
        · exact ⟨⟨7/10, "ordinal_similarity"⟩,
            mkSimilarityResult_ok _ (by norm_num) (by norm_num), by norm_num⟩
        · exact ⟨⟨4/10, "ordinal_similarity"⟩,
            mkSimilarityResult_ok _ (by norm_num) (by norm_num), by norm_num⟩
        · exact ⟨⟨0, "ordinal_similarity"⟩,
            mkSimilarityResult_ok _ le_rfl (by norm_num), by norm_num⟩

/-- Embedded `gpaCore` never raises, and its score is always in `[0, 1]`. -/
lemma gpaCore_ok (g1 g2 : ℚ) :
    ∃ r, gpaCore g1 g2 = .ok r ∧ 0 ≤ r.score ∧ r.score ≤ 1 := by
  unfold gpaCore
  by_cases h1 : ¬(0 ≤ g1 ∧ g1 ≤ 9/2)
  · rw [if_pos h1]
    exact ⟨⟨0, "gpa_out_of_range"⟩, mkSimilarityResult_ok _ le_rfl (by norm_num), by norm_num⟩
  · rw [if_neg h1]
    by_cases h2 : g1 ≥ g2
    · rw [if_pos h2]
      exact ⟨⟨1, "above_expectation"⟩, mkSimilarityResult_ok _ (by norm_num) le_rfl, by norm_num⟩
    · rw [if_neg h2]
      dsimp only
      have hgap : 0 < g2 - g1 := by
        have := lt_of_not_ge h2
        linarith
      by_cases h3 : g2 - g1 > 1/2
      · rw [if_pos h3]
        exact ⟨⟨0, "distance_based"⟩, mkSimilarityResult_ok _ le_rfl (by norm_num), by norm_num⟩
      · rw [if_neg h3]
        push_neg at h3
        have hdnn : 0 ≤ (g2 - g1) / (1/2) := div_nonneg (le_of_lt hgap) (by norm_num)
        have hdle : (g2 - g1) / (1/2) ≤ 1 := by
          rw [div_le_one (by norm_num : (0:ℚ) < 1/2)]
          linarith
        exact ⟨⟨1 - (g2 - g1) / (1/2), "distance_based"⟩,
          mkSimilarityResult_ok _ (by linarith) (by linarith), by constructor <;> linarith⟩

/-- Embedded `gpaCalc` never raises, and its score is always in `[0, 1]`. -/
lemma gpaCalc_ok (e : ℚ) (t1 t2 : String) :
    ∃ r, gpaCalc e t1 t2 = .ok r ∧ 0 ≤ r.score ∧ r.score ≤ 1 := by
  unfold gpaCalc
  cases pyParseFloat t1 with
  | none => exact ⟨⟨0, "invalid_gpa"⟩, mkSimilarityResult_ok _ le_rfl (by norm_num), by norm_num⟩
  | some g1 =>
    cases (if t2 = "" then some e else pyParseFloat t2) with
    | none => exact ⟨⟨0, "invalid_gpa"⟩, mkSimilarityResult_ok _ le_rfl (by norm_num), by norm_num⟩
    | some g2 => exact gpaCore_ok g1 g2

/-- Embedded `majorCalc` never raises, and its score is always in `[0, 1]`. -/
lemma majorCalc_ok (t1 t2 : String) :
    ∃ r, majorCalc t1 t2 = .ok r ∧ 0 ≤ r.score ∧ r.score ≤ 1 := by
  unfold majorCalc
  dsimp only
  split_ifs
  · exact ⟨⟨1, "exact_match"⟩, mkSimilarityResult_ok _ (by norm_num) le_rfl, by norm_num⟩
  · exact ⟨⟨8/10, "same_group"⟩, mkSimilarityResult_ok _ (by norm_num) (by norm_num), by norm_num⟩
  · exact ⟨⟨6/10, "partial_match"⟩, mkSimilarityResult_ok _ (by norm_num) (by norm_num), by norm_num⟩
  · exact ⟨⟨5/10, "related_engineering"⟩,
      mkSimilarityResult_ok _ (by norm_num) (by norm_num), by norm_num⟩
  · exact ⟨⟨0, "no_match"⟩, mkSimilarityResult_ok _ le_rfl (by norm_num), by norm_num⟩

/-! ## Claim theorems -/

/-- Claim C7 — Language-score similarity: for every pair of parseable subject
and required scores, `calculate` returns 1.0 when subject ≥ required;
otherwise, with ratio = subject/required, it returns 0.0 when ratio < 0.7 and
(ratio − 0.7)/0.3 when 0.7 ≤ ratio < 1.  In particular subject "780" against
required "800" yields (0.975 − 0.7)/0.3 and subject "550" against "800"
yields exactly 0.0. -/
theorem claim_C7 :
    (∀ (t1 t2 : String) (s1 s2 : Int), parseScore t1 = some s1 → parseScore t2 = some s2 →
      (s2 ≤ s1 → langCalc t1 t2 = .ok ⟨1, "above_requirement"⟩) ∧
      (s1 < s2 → (s1 : ℚ) / (s2 : ℚ) < 7/10 → langCalc t1 t2 = .ok ⟨0, "linear_decay"⟩) ∧
      (s1 < s2 → 7/10 ≤ (s1 : ℚ) / (s2 : ℚ) → (s1 : ℚ) / (s2 : ℚ) < 1 →
        langCalc t1 t2 = .ok ⟨((s1 : ℚ) / (s2 : ℚ) - 7/10) / (3/10), "linear_decay"⟩)) ∧
    langCalc "780" "800" = .ok ⟨(39/40 - 7/10) / (3/10), "linear_decay"⟩ ∧
    langCalc "550" "800" = .ok ⟨0, "linear_decay"⟩ := by
  have main : ∀ (t1 t2 : String) (s1 s2 : Int), parseScore t1 = some s1 →
      parseScore t2 = some s2 →
      (s2 ≤ s1 → langCalc t1 t2 = .ok ⟨1, "above_requirement"⟩) ∧
      (s1 < s2 → (s1 : ℚ) / (s2 : ℚ) < 7/10 → langCalc t1 t2 = .ok ⟨0, "linear_decay"⟩) ∧
      (s1 < s2 → 7/10 ≤ (s1 : ℚ) / (s2 : ℚ) → (s1 : ℚ) / (s2 : ℚ) < 1 →
        langCalc t1 t2 = .ok ⟨((s1 : ℚ) / (s2 : ℚ) - 7/10) / (3/10), "linear_decay"⟩) := by
    intro t1 t2 s1 s2 h1 h2
    unfold langCalc
    rw [h1, h2]
    dsimp only
    refine ⟨?_, ?_, ?_⟩
    · intro hge
      rw [if_pos (by exact hge)]
      exact mkSimilarityResult_ok _ (by norm_num) le_rfl
    · intro hlt hratio
      rw [if_neg (by omega)]
      by_cases hs2 : (0 : Int) < s2
      · rw [if_pos hs2, if_pos hratio]
        exact mkSimilarityResult_ok _ le_rfl (by norm_num)
      · rw [if_neg hs2, if_pos (by norm_num)]
        exact mkSimilarityResult_ok _ le_rfl (by norm_num)
    · intro hlt hlo hhi
      rw [if_neg (by omega)]
      have hs2 : (0 : Int) < s2 := by
        by_contra hs2
        push_neg at hs2
        rcases lt_or_eq_of_le hs2 with hneg | hzero
        · have hq2 : (s2 : ℚ) < 0 := by exact_mod_cast hneg
          have hq1 : (s1 : ℚ) < (s2 : ℚ) := by exact_mod_cast hlt
          have : 1 < (s1 : ℚ) / (s2 : ℚ) := (one_lt_div_of_neg hq2).mpr hq1
          linarith
        · rw [hzero] at hlo
          norm_num at hlo
      rw [if_pos hs2, if_neg (not_lt.mpr hlo)]
      have hnn : 0 ≤ ((s1 : ℚ) / (s2 : ℚ) - 7/10) / (3/10) := by
        apply div_nonneg _ (by norm_num)
        linarith
      have hle : ((s1 : ℚ) / (s2 : ℚ) - 7/10) / (3/10) ≤ 1 := by
        rw [div_le_one (by norm_num : (0:ℚ) < 3/10)]
        linarith
      exact mkSimilarityResult_ok _ hnn hle
  refine ⟨main, ?_, ?_⟩
  · have h := (main "780" "800" 780 800 rfl rfl).2.2 (by norm_num) (by norm_num) (by norm_num)
    rw [h]
    norm_num
  · exact (main "550" "800" 550 800 rfl rfl).2.1 (by norm_num) (by norm_num)

/-- Witness for C7: the general part applied at subject "850" against
required "800". -/
theorem claim_C7_witness : langCalc "850" "800" = .ok ⟨1, "above_requirement"⟩ :=
  (claim_C7.1 "850" "800" 850 800 rfl rfl).1 (by norm_num)

/-- Claim C8 — GPA similarity: for every pair of parseable subject and expected
GPAs with the subject in [0, 4.5], `calculate` returns 1.0 when subject ≥
expected; otherwise with gap = expected − subject it returns 0.0 when the gap
exceeds 0.5 and 1 − gap/0.5 when gap ≤ 0.5.  In particular GPA "3.0" against
"3.5" yields 0.0 and "3.3" against "3.5" yields 1 − 0.2/0.5 = 0.6. -/
theorem claim_C8 :
    (∀ (t1 t2 : String) (g1 g2 : ℚ), pyParseFloat t1 = some g1 → pyParseFloat t2 = some g2 →
      t2 ≠ "" → 0 ≤ g1 → g1 ≤ 9/2 →
      (g2 ≤ g1 → gpaCalc (7/2) t1 t2 = .ok ⟨1, "above_expectation"⟩) ∧
      (g1 < g2 → 1/2 < g2 - g1 → gpaCalc (7/2) t1 t2 = .ok ⟨0, "distance_based"⟩) ∧
      (g1 < g2 → g2 - g1 ≤ 1/2 →
        gpaCalc (7/2) t1 t2 = .ok ⟨1 - (g2 - g1) / (1/2), "distance_based"⟩)) ∧
    gpaCalc (7/2) "3.0" "3.5" = .ok ⟨0, "distance_based"⟩ ∧
    gpaCalc (7/2) "3.3" "3.5" = .ok ⟨1 - (2/10) / (5/10), "distance_based"⟩ := by
  have main : ∀ (t1 t2 : String) (g1 g2 : ℚ), pyParseFloat t1 = some g1 →
      pyParseFloat t2 = some g2 → t2 ≠ "" → 0 ≤ g1 → g1 ≤ 9/2 →
      (g2 ≤ g1 → gpaCalc (7/2) t1 t2 = .ok ⟨1, "above_expectation"⟩) ∧
      (g1 < g2 → 1/2 < g2 - g1 → gpaCalc (7/2) t1 t2 = .ok ⟨0, "distance_based"⟩) ∧
      (g1 < g2 → g2 - g1 ≤ 1/2 →
        gpaCalc (7/2) t1 t2 = .ok ⟨1 - (g2 - g1) / (1/2), "distance_based"⟩) := by
    intro t1 t2 g1 g2 h1 h2 hne hg0 hg45
    unfold gpaCalc
    rw [if_neg hne, h1, h2]
    dsimp only
    unfold gpaCore
    rw [if_neg (not_not_intro ⟨hg0, hg45⟩)]
    refine ⟨?_, ?_, ?_⟩
    · intro hge
      rw [if_pos (by exact hge)]
      exact mkSimilarityResult_ok _ (by norm_num) le_rfl
    · intro hlt hgap
      rw [if_neg (not_le.mpr hlt)]
      dsimp only
      rw [if_pos hgap]
      exact mkSimilarityResult_ok _ le_rfl (by norm_num)
    · intro hlt hgap
      rw [if_neg (not_le.mpr hlt)]
      dsimp only
      rw [if_neg (not_lt.mpr hgap)]
      have hdnn : 0 ≤ (g2 - g1) / (1/2) := div_nonneg (by linarith) (by norm_num)
      have hdle : (g2 - g1) / (1/2) ≤ 1 := by
        rw [div_le_one (by norm_num : (0:ℚ) < 1/2)]
        linarith
      exact mkSimilarityResult_ok _ (by linarith) (by linarith)
  have p30 : pyParseFloat "3.0" = some 3 := by
    rw [pyParseFloat, show parseFloatRep "3.0" = some (false, 3, 0, 1) from rfl]
    norm_num [floatRepVal]
  have p33 : pyParseFloat "3.3" = some (33/10) := by
    rw [pyParseFloat, show parseFloatRep "3.3" = some (false, 3, 3, 1) from rfl]
    norm_num [floatRepVal]
  have p35 : pyParseFloat "3.5" = some (7/2) := by
    rw [pyParseFloat, show parseFloatRep "3.5" = some (false, 3, 5, 1) from rfl]
    norm_num [floatRepVal]
  refine ⟨main, ?_, ?_⟩
  · have h := (main "3.0" "3.5" 3 (7/2) p30 p35 (by decide) (by norm_num) (by norm_num)).2.2
      (by norm_num) (by norm_num)
    rw [h]
    norm_num
  · have h := (main "3.3" "3.5" (33/10) (7/2) p33 p35 (by decide) (by norm_num)
      (by norm_num)).2.2 (by norm_num) (by norm_num)
    rw [h]
    norm_num

/-- Witness for C8: the general part applied at GPA "4.2" against expected
"3.5". -/
theorem claim_C8_witness : gpaCalc (7/2) "4.2" "3.5" = .ok ⟨1, "above_expectation"⟩ := by
  have p42 : pyParseFloat "4.2" = some (21/5) := by
    rw [pyParseFloat, show parseFloatRep "4.2" = some (false, 4, 2, 1) from rfl]
    norm_num [floatRepVal]
  have p35 : pyParseFloat "3.5" = some (7/2) := by
    rw [pyParseFloat, show parseFloatRep "3.5" = some (false, 3, 5, 1) from rfl]
    norm_num [floatRepVal]
  exact (claim_C8.1 "4.2" "3.5" (21/5) (7/2) p42 p35 (by decide) (by norm_num)
    (by norm_num)).1 (by norm_num)

/-- Claim C5 — For every student profile with a nonempty narrative field and
every stage-1 `Lab` (the dataclass the scorer actually imports, with fields
id, name, professor, description, homepage, location), `score_lab` raises
`AttributeError` when it reads `lab.sections` at line 192, before any
similarity is computed — the stage-2 scorer cannot consume the stage-1 `Lab`
type at all. -/
theorem claim_C5 (student : StudentProfile) (lab : Lab)
    (hnarr : student.intro1 ≠ "" ∨ student.intro2 ≠ "" ∨ student.intro3 ≠ "" ∨
      student.portfolioText ≠ "") :
    scoreLabStage1 student lab = .error (.attributeError "sections") := by
  rw [scoreLabStage1, if_neg (by decide)]

/-- Witness for C5: a concrete profile with a nonempty interest statement and
a concrete stage-1 lab. -/
theorem claim_C5_witness :
    scoreLabStage1 { intro1 := "vision research" }
      ⟨"CV001", "vision lab", "prof", "computer vision", "", ""⟩ =
      .error (.attributeError "sections") :=
  claim_C5 { intro1 := "vision research" }
    ⟨"CV001", "vision lab", "prof", "computer vision", "", ""⟩ (Or.inl (by decide))

/-- Claim C3 — `ScorerConfig` validation succeeds exactly when each of the four
weight groups (top-level tier weights; sentence-, keyword- and numeric-tier
field weights) sums into the tolerance interval [0.99, 1.01]; for any
configuration with some group sum outside that interval, validation raises
and constructing a `RerankingScorer` with it fails; a validated scorer stores
the configuration verbatim (no renormalization). -/
theorem claim_C3 (cfg : ScorerConfig) :
    (cfg.validate = .ok true ↔
      (99/100 ≤ cfg.sentenceWeight + cfg.keywordWeight + cfg.numericWeight ∧
        cfg.sentenceWeight + cfg.keywordWeight + cfg.numericWeight ≤ 101/100) ∧
      (99/100 ≤ cfg.sentence.intro1Weight + cfg.sentence.intro2Weight +
          cfg.sentence.intro3Weight + cfg.sentence.portfolioWeight ∧
        cfg.sentence.intro1Weight + cfg.sentence.intro2Weight +
          cfg.sentence.intro3Weight + cfg.sentence.portfolioWeight ≤ 101/100) ∧
      (99/100 ≤ cfg.keyword.majorWeight + cfg.keyword.certificationWeight +
          cfg.keyword.awardWeight + cfg.keyword.techStackWeight ∧
        cfg.keyword.majorWeight + cfg.keyword.certificationWeight +
          cfg.keyword.awardWeight + cfg.keyword.techStackWeight ≤ 101/100) ∧
      (99/100 ≤ cfg.numeric.languageScoreWeight + cfg.numeric.proficiencyWeight +
          cfg.numeric.gpaWeight ∧
        cfg.numeric.languageScoreWeight + cfg.numeric.proficiencyWeight +
          cfg.numeric.gpaWeight ≤ 101/100)) ∧
    (mkRerankingScorer (some cfg) = .ok ⟨cfg⟩ ↔ cfg.validate = .ok true) ∧
    (cfg.validate ≠ .ok true → ∃ msg, mkRerankingScorer (some cfg) = .error (.valueError msg)) := by
  refine ⟨?_, ?_, ?_⟩
  · unfold ScorerConfig.validate
    dsimp only
    split_ifs with h1 h2 h3 h4 <;>
      simp only [reduceCtorEq, false_iff, eq_self_iff_true, true_iff] <;> tauto
  · unfold mkRerankingScorer
    simp only [Option.getD_some]
    cases hv : cfg.validate with
    | ok b =>
      have hb : b = true := by
        unfold ScorerConfig.validate at hv
        dsimp only at hv
        split_ifs at hv <;> simp_all
      subst hb
      simp [hv]
    | error e => simp [hv]
  · intro hne
    unfold mkRerankingScorer
    simp only [Option.getD_some]
    cases hv : cfg.validate with
    | ok b =>
      have hb : b = true := by
        unfold ScorerConfig.validate at hv
        dsimp only at hv
        split_ifs at hv <;> simp_all
      exact absurd (hb ▸ hv) hne
    | error e =>
      have he : ∃ msg, e = .valueError msg := by
        unfold ScorerConfig.validate at hv
        dsimp only at hv
        split_ifs at hv <;> injection hv with h <;> exact ⟨_, h.symm⟩
      obtain ⟨msg, rfl⟩ := he
      exact ⟨msg, rfl⟩

/-- Witness for C3: the default configuration validates (its four group sums
are 1.0), and a configuration whose tier weights sum to 1.3 is rejected by
scorer construction. -/
theorem claim_C3_witness :
    defaultScorerConfig.validate = .ok true ∧
    (∃ msg, mkRerankingScorer (some { sentenceWeight := 9/10 }) = .error (.valueError msg)) := by
  constructor
  · exact (claim_C3 defaultScorerConfig).1.mpr (by norm_num [defaultScorerConfig])
  · refine (claim_C3 { sentenceWeight := 9/10 }).2.2 (fun h => ?_)
    have := (claim_C3 { sentenceWeight := 9/10 }).1.mp h
    norm_num at this

/-- Claim C2 (amended) — Constructing a `SimilarityResult` with a score outside
[0,1] raises a construction error and an in-range score is stored unchanged
(no clamping); the numeric measures (language score, proficiency, GPA) and
the categorical major measure always return results with scores in [0,1];
the sentence measure passes the raw encoder cosine to the constructor
unchanged, so its score lies in [0,1] exactly when the cosine does — for an
encoder whose unit vectors give a negative cosine, `calculate` propagates the
construction error instead of returning a result (see the counterexample). -/
theorem claim_C2 :
    (∀ (s : ℚ) (m : String),
      (0 ≤ s ∧ s ≤ 1 → mkSimilarityResult s m = .ok ⟨s, m⟩) ∧
      (¬(0 ≤ s ∧ s ≤ 1) →
        mkSimilarityResult s m = .error (.valueError "Score must be between 0.0 and 1.0"))) ∧
    (∀ t1 t2, ∃ r, langCalc t1 t2 = .ok r ∧ 0 ≤ r.score ∧ r.score ≤ 1) ∧
    (∀ t1 t2, ∃ r, profCalc t1 t2 = .ok r ∧ 0 ≤ r.score ∧ r.score ≤ 1) ∧
    (∀ e t1 t2, ∃ r, gpaCalc e t1 t2 = .ok r ∧ 0 ≤ r.score ∧ r.score ≤ 1) ∧
    (∀ t1 t2, ∃ r, majorCalc t1 t2 = .ok r ∧ 0 ≤ r.score ∧ r.score ≤ 1) ∧
    (∀ (enc : EncoderModel) (mn : String) (rm : Bool) (t1 t2 : String) (r : SimilarityResult),
      sentenceCalc enc mn rm t1 t2 = .ok r → 0 ≤ r.score ∧ r.score ≤ 1) := by
  refine ⟨?_, langCalc_ok, profCalc_ok, gpaCalc_ok, majorCalc_ok, ?_⟩
  · intro s m
    exact ⟨fun h => mkSimilarityResult_ok m h.1 h.2, fun h => mkSimilarityResult_err m h⟩
  · intro enc mn rm t1 t2 r h
    unfold sentenceCalc mkSimilarityResult at h
    dsimp only at h
    split_ifs at h <;> cases h <;> simp_all

/-- Witness for C2: the constructor part at the out-of-range score 1.5, and
the language-score part at an unparseable subject. -/
theorem claim_C2_witness :
    mkSimilarityResult (3/2) "cosine_similarity" =
      .error (.valueError "Score must be between 0.0 and 1.0") ∧
    (∃ r, langCalc "unparseable" "800" = .ok r ∧ 0 ≤ r.score ∧ r.score ≤ 1) :=
  ⟨(claim_C2.1 (3/2) "cosine_similarity").2 (by norm_num),
   claim_C2.2.1 "unparseable" "800"⟩

/-- Counterexample for C2 as stated: an encoder returning unit vectors whose
cosine is −1 makes `SentenceSimilarity.calculate` raise the construction
error instead of returning a score in [0,1]. -/
theorem claim_C2_counterexample :
    isUnitVec (encNeg.encode "query: a") ∧ isUnitVec (encNeg.encode "passage: b") ∧
    sentenceCalc encNeg "intfloat/multilingual-e5-large" true "a" "b" =
      .error (.valueError "Score must be between 0.0 and 1.0") := by
  refine ⟨?_, ?_, ?_⟩
  · show vecDot (encNeg.encode "query: a") (encNeg.encode "query: a") = 1
    rw [show encNeg.encode "query: a" = [1] from rfl]
    norm_num [vecDot]
  · show vecDot (encNeg.encode "passage: b") (encNeg.encode "passage: b") = 1
    rw [show encNeg.encode "passage: b" = [-1] from rfl]
    norm_num [vecDot]
  · unfold sentenceCalc
    rw [show (true && strIn "e5" (pyLower "intfloat/multilingual-e5-large")) = true from rfl]
    dsimp only
    rw [if_pos rfl, if_pos rfl]
    rw [show encNeg.encode ("query: " ++ "a") = [1] from rfl,
      show encNeg.encode ("passage: " ++ "b") = [-1] from rfl]
    have hdot : vecDot [1] [-1] = (-1 : ℚ) := by norm_num [vecDot]
    rw [hdot]
    exact mkSimilarityResult_err _ (by norm_num)

/-- The loop body of `keyword_match_score` accumulates exactly on the
categories matched on both sides. -/
lemma kmsStep_eq (ql ll : String) (acc : ℚ × List String) (c : String × List String × ℚ) :
    kmsStep ql ll acc c =
      if bothSidesMatch ql ll c then (acc.1 + catRatioScore c.2.1 c.2.2 ll, acc.2 ++ [c.1])
      else acc := by
  unfold kmsStep bothSidesMatch
  by_cases h1 : c.2.1.filter (fun t => strIn t ql) ≠ [] <;>
    by_cases h2 : c.2.1.filter (fun t => strIn t ll) ≠ [] <;>
    simp [h1, h2]

/-- Folding the `keyword_match_score` loop over a category list accumulates
the per-category scores and names of the both-side-matched categories. -/
lemma kms_foldl_spec (ql ll : String) (cats : List (String × List String × ℚ)) :
    ∀ (a : ℚ) (m : List String),
      cats.foldl (kmsStep ql ll) (a, m) =
        (a + ((cats.filter (fun c => bothSidesMatch ql ll c)).map
            (fun c => catRatioScore c.2.1 c.2.2 ll)).sum,
         m ++ (cats.filter (fun c => bothSidesMatch ql ll c)).map Prod.fst) := by
  induction cats with
  | nil => intro a m; simp
  | cons c cs ih =>
    intro a m
    rw [List.foldl_cons, kmsStep_eq]
    by_cases h : bothSidesMatch ql ll c
    · rw [if_pos h, ih]
      simp only [List.filter_cons, decide_eq_true_eq, if_pos h, List.map_cons, List.sum_cons]
      refine Prod.ext ?_ ?_
      · dsimp only
        ring
      · simp
    · rw [if_neg h, ih]
      simp only [List.filter_cons, decide_eq_true_eq, if_neg h]

/-- Embedded `keyword_match_score` as the (clipped) mean over the matched categories. -/
lemma keywordMatchScore_eq (q l : String) :
    keywordMatchScore q l =
      if matchedCategories q l = [] then 0
      else min (((matchedCategories q l).map
          (fun c => catRatioScore c.2.1 c.2.2 (pyLower l))).sum /
        ((matchedCategories q l).length : ℚ)) 1 := by
  unfold keywordMatchScore matchedCategories
  dsimp only
  rw [kms_foldl_spec]
  simp only [zero_add, List.nil_append, ne_eq, List.map_eq_nil_iff, List.length_map]
  split_ifs with h1 h2 h3 <;> first | rfl | (exfalso; exact h1 h2) | (exfalso; exact h3 h1)

/-- Every category weight in the domain dictionary lies in `[0, 1]`. -/
lemma research_weight_bounds : ∀ c ∈ RESEARCH_KEYWORDS, 0 ≤ c.2.2 ∧ c.2.2 ≤ 1 := by
  intro c hc
  simp only [RESEARCH_KEYWORDS, List.mem_cons, List.not_mem_nil, or_false] at hc
  rcases hc with rfl | rfl | rfl | rfl | rfl | rfl | rfl | rfl | rfl <;> norm_num

/-- The per-category score is within `[0, weight] ⊆ [0, 1]`. -/
lemma catRatioScore_bounds (terms : List String) (w : ℚ) (ll : String)
    (h0 : 0 ≤ w) (h1 : w ≤ 1) :
    0 ≤ catRatioScore terms w ll ∧ catRatioScore terms w ll ≤ 1 := by
  unfold catRatioScore
  dsimp only
  have hx : (0:ℚ) ≤ ((terms.filter (fun t => strIn t ll)).length : ℚ) /
      (terms.length : ℚ) * 3 := by positivity
  constructor
  · exact mul_nonneg (le_min hx zero_le_one) h0
  · calc min (((terms.filter (fun t => strIn t ll)).length : ℚ) /
          (terms.length : ℚ) * 3) 1 * w
        ≤ 1 * w := mul_le_mul_of_nonneg_right (min_le_right _ _) h0
      _ = w := one_mul w
      _ ≤ 1 := h1

/-- A list of rationals bounded by 1 sums to at most its length. -/
lemma list_sum_le_length (l : List ℚ) (h : ∀ x ∈ l, x ≤ 1) : l.sum ≤ (l.length : ℚ) := by
  have h2 := List.sum_le_card_nsmul l 1 h
  simpa [nsmul_eq_mul] using h2

/-- Claim C6 — The domain taxonomy match score equals, for every query and
candidate text, the mean over both-side-matched categories of
`min(match_ratio × 3, 1.0) × weight` (with `match_ratio` the candidate-side
matching variant count over the category's variant count); it is 0.0 when no
category matches on both sides, and always lies in [0, 1]. -/
theorem claim_C6 (query labText : String) :
    keywordMatchScore query labText =
      (if matchedCategories query labText = [] then 0
       else ((matchedCategories query labText).map
           (fun c => catRatioScore c.2.1 c.2.2 (pyLower labText))).sum /
         ((matchedCategories query labText).length : ℚ)) ∧
    0 ≤ keywordMatchScore query labText ∧ keywordMatchScore query labText ≤ 1 := by
  have hwb : ∀ c ∈ matchedCategories query labText, 0 ≤ c.2.2 ∧ c.2.2 ≤ 1 := by
    intro c hc
    exact research_weight_bounds c (List.mem_of_mem_filter hc)
  have hsb : ∀ x ∈ (matchedCategories query labText).map
      (fun c => catRatioScore c.2.1 c.2.2 (pyLower labText)), 0 ≤ x ∧ x ≤ 1 := by
    intro x hx
    obtain ⟨c, hc, rfl⟩ := List.mem_map.mp hx
    exact catRatioScore_bounds c.2.1 c.2.2 (pyLower labText) (hwb c hc).1 (hwb c hc).2
  by_cases hM : matchedCategories query labText = []
  · rw [keywordMatchScore_eq, if_pos hM]
    norm_num [hM]
  · have hlen : (0:ℚ) < ((matchedCategories query labText).length : ℚ) := by
      have := List.length_pos.mpr hM
      exact_mod_cast this
    have hsum0 : 0 ≤ ((matchedCategories query labText).map
        (fun c => catRatioScore c.2.1 c.2.2 (pyLower labText))).sum :=
      List.sum_nonneg (fun x hx => (hsb x hx).1)
    have hsum1 : ((matchedCategories query labText).map
        (fun c => catRatioScore c.2.1 c.2.2 (pyLower labText))).sum ≤
        ((matchedCategories query labText).length : ℚ) := by
      have h := list_sum_le_length _ (fun x hx => (hsb x hx).2)
      simpa [List.length_map] using h
    have hmean0 : 0 ≤ ((matchedCategories query labText).map
        (fun c => catRatioScore c.2.1 c.2.2 (pyLower labText))).sum /
        ((matchedCategories query labText).length : ℚ) := div_nonneg hsum0 (le_of_lt hlen)
    have hmean1 : ((matchedCategories query labText).map
        (fun c => catRatioScore c.2.1 c.2.2 (pyLower labText))).sum /
        ((matchedCategories query labText).length : ℚ) ≤ 1 :=
      (div_le_one hlen).mpr hsum1
    rw [keywordMatchScore_eq, if_neg hM, min_eq_left hmean1]
    exact ⟨by rw [if_neg hM], hmean0, hmean1⟩

/-! ### Pipeline lemmas -/

/-- Members of a dict after assignment: the assigned pair or an old member. -/
lemma mem_dictInsert (d : List (String × CandScores)) (k : String) (v : CandScores)
    (p : String × CandScores) (hp : p ∈ dictInsert d k v) : p = (k, v) ∨ p ∈ d := by
  unfold dictInsert at hp
  split_ifs at hp with h
  · obtain ⟨q, hq, heq⟩ := List.mem_map.mp hp
    by_cases hqk : q.1 = k
    · rw [if_pos hqk] at heq
      exact Or.inl heq.symm
    · rw [if_neg hqk] at heq
      exact Or.inr (heq ▸ hq)
  · rcases List.mem_append.mp hp with h1 | h1
    · exact Or.inr h1
    · exact Or.inl (List.mem_singleton.mp h1)

/-- Every record inserted by the per-index loop body satisfies the combined
score formula over its own stored fields. -/
lemma gcwsStep_inv (kw sw : ℚ) (ud un : Bool) (query : String)
    (kwN semR dom : List ℚ) (labs : List Lab) (acc : List (String × CandScores)) (idx : Nat)
    (hacc : ∀ p ∈ acc, p.2.combinedScore =
      (if ud ∧ p.2.domainScore > 3/10 then
        p.2.domainScore * (7/10) + p.2.keywordScore * (3/10)
       else p.2.keywordScore) * kw + p.2.semanticScore * sw) :
    ∀ p ∈ gcwsStep kw sw ud un query kwN semR dom labs acc idx, p.2.combinedScore =
      (if ud ∧ p.2.domainScore > 3/10 then
        p.2.domainScore * (7/10) + p.2.keywordScore * (3/10)
       else p.2.keywordScore) * kw + p.2.semanticScore * sw := by
  intro p hp
  unfold gcwsStep at hp
  dsimp only at hp
  set eff := if ud ∧ dom.getD idx 0 > 3/10 then
      dom.getD idx 0 * (7/10) + kwN.getD idx 0 * (3/10)
    else kwN.getD idx 0 with heff
  split at hp
  · exact hacc p hp
  · split at hp
    · rcases mem_dictInsert _ _ _ _ hp with rfl | hold
      · dsimp only
      · exact hacc p hold
    · exact hacc p hp

/-- Folding the loop body over any index list preserves the combined score
formula. -/
lemma gcws_foldl_inv (kw sw : ℚ) (ud un : Bool) (query : String)
    (kwN semR dom : List ℚ) (labs : List Lab) (idxs : List Nat) :
    ∀ (acc : List (String × CandScores)),
      (∀ p ∈ acc, p.2.combinedScore =
        (if ud ∧ p.2.domainScore > 3/10 then
          p.2.domainScore * (7/10) + p.2.keywordScore * (3/10)
         else p.2.keywordScore) * kw + p.2.semanticScore * sw) →
      ∀ p ∈ idxs.foldl (gcwsStep kw sw ud un query kwN semR dom labs) acc,
        p.2.combinedScore =
          (if ud ∧ p.2.domainScore > 3/10 then
            p.2.domainScore * (7/10) + p.2.keywordScore * (3/10)
           else p.2.keywordScore) * kw + p.2.semanticScore * sw := by
  induction idxs with
  | nil => intro acc hacc p hp; exact hacc p hp
  | cons i is ih =>
    intro acc hacc p hp
    rw [List.foldl_cons] at hp
    exact ih _ (gcwsStep_inv kw sw ud un query kwN semR dom labs acc i hacc) p hp

/-- Embedded `getD` of an all-zero score list is 0 at every index. -/
lemma getD_zero {l : List ℚ} (h : ∀ x ∈ l, x = 0) (i : Nat) : l.getD i 0 = 0 := by
  induction l generalizing i with
  | nil => simp
  | cons x xs ih =>
    cases i with
    | zero => simpa using h x (List.mem_cons_self x xs)
    | succ n => simpa using ih (fun y hy => h y (List.mem_cons_of_mem x hy)) n

/-- Folding `min` over a constant list starting at the constant. -/
lemma foldl_min_all_eq (c : ℚ) : ∀ (xs : List ℚ), (∀ x ∈ xs, x = c) → xs.foldl min c = c := by
  intro xs
  induction xs with
  | nil => intro _; rfl
  | cons y ys ih =>
    intro h
    rw [List.foldl_cons, h y (List.mem_cons_self y ys), min_self]
    exact ih (fun z hz => h z (List.mem_cons_of_mem y hz))

/-- Folding `max` over a constant list starting at the constant. -/
lemma foldl_max_all_eq (c : ℚ) : ∀ (xs : List ℚ), (∀ x ∈ xs, x = c) → xs.foldl max c = c := by
  intro xs
  induction xs with
  | nil => intro _; rfl
  | cons y ys ih =>
    intro h
    rw [List.foldl_cons, h y (List.mem_cons_self y ys), max_self]
    exact ih (fun z hz => h z (List.mem_cons_of_mem y hz))

/-- Embedded `listMin` of a nonempty constant list. -/
lemma listMin_all_eq {l : List ℚ} {c : ℚ} (hne : l ≠ []) (h : ∀ x ∈ l, x = c) :
    listMin l = c := by
  cases l with
  | nil => exact absurd rfl hne
  | cons x xs =>
    have hx : x = c := h x (List.mem_cons_self x xs)
    subst hx
    show xs.foldl min x = x
    exact foldl_min_all_eq x xs (fun z hz => h z (List.mem_cons_of_mem x hz))

/-- Embedded `listMax` of a nonempty constant list. -/
lemma listMax_all_eq {l : List ℚ} {c : ℚ} (hne : l ≠ []) (h : ∀ x ∈ l, x = c) :
    listMax l = c := by
  cases l with
  | nil => exact absurd rfl hne
  | cons x xs =>
    have hx : x = c := h x (List.mem_cons_self x xs)
    subst hx
    show xs.foldl max x = x
    exact foldl_max_all_eq x xs (fun z hz => h z (List.mem_cons_of_mem x hz))

/-- Normalizing an all-zero raw keyword score vector yields all zeros. -/
lemma normalizeKeywordScores_zero (l1p : ℚ → ℚ) (scores : List ℚ)
    (h : ∀ x ∈ scores, x = 0) : ∀ x ∈ normalizeKeywordScores l1p scores, x = 0 := by
  unfold normalizeKeywordScores
  dsimp only
  have hlogs : ∀ x ∈ scores.map l1p, x = l1p 0 := by
    intro x hx
    obtain ⟨y, hy, rfl⟩ := List.mem_map.mp hx
    rw [h y hy]
  have hdiff : listMax (scores.map l1p) - listMin (scores.map l1p) = 0 := by
    cases hs : scores.map l1p with
    | nil => simp [listMin, listMax]
    | cons a as =>
      rw [← hs, listMin_all_eq (by simp [hs]) hlogs, listMax_all_eq (by simp [hs]) hlogs]
      ring
  rw [if_pos (by rw [hdiff]; norm_num)]
  intro x hx
  exact (List.mem_map.mp hx).elim (fun y hy => hy.2.symm)

/-- Rescaling a semantic score vector entirely below the floor yields all
zeros. -/
lemma rescaleSemanticScores_low (scores : List ℚ) (h : ∀ s ∈ scores, s < 7/10) :
    ∀ x ∈ rescaleSemanticScores (7/10) scores, x = 0 := by
  unfold rescaleSemanticScores
  dsimp only
  have hfil : ∀ x ∈ scores.map (fun s => if s ≥ 7/10 then s else 0), x = 0 := by
    intro x hx
    obtain ⟨y, hy, rfl⟩ := List.mem_map.mp hx
    rw [if_neg (not_le.mpr (h y hy))]
  have hnz : (scores.map (fun s => if s ≥ 7/10 then s else 0)).filter (fun s => s > 0) = [] := by
    rw [List.filter_eq_nil_iff]
    intro a ha
    rw [hfil a ha]
    norm_num
  rw [if_pos hnz]
  exact hfil

/-- The domain taxonomy matcher scores the empty query as 0 against every
candidate text (no variant occurs in the empty string). -/
lemma keywordMatchScore_empty_query (t : String) : keywordMatchScore "" t = 0 := by
  rw [keywordMatchScore_eq]
  have hM : matchedCategories "" t = [] := by
    unfold matchedCategories
    rw [List.filter_eq_nil_iff]
    intro c hc
    have hterms : c.2.1.filter (fun term => strIn term (pyLower "")) = [] := by
      have hall : ∀ c2 ∈ RESEARCH_KEYWORDS,
          c2.2.1.filter (fun term => strIn term (pyLower "")) = [] := by decide
      exact hall c hc
    simp only [bothSidesMatch, decide_eq_true_eq, not_and, ne_eq, not_not]
    intro hq
    exact absurd hterms hq
  rw [if_pos hM]

/-- Claim C1 (amended) — In stage-1 candidate generation with domain keywords
enabled, every returned candidate's combined score is built from an effective
lexical score equal to `0.7 × domain_score + 0.3 × normalized_lexical_score`
whenever its domain score exceeds 0.3, and to the normalized lexical score
otherwise (the code blends rather than taking the maximum). -/
theorem claim_C1 (kw sw : ℚ) (un : Bool) (l1p : ℚ → ℚ) (labs : List Lab) (query : String)
    (keywordRaw semRaw : List ℚ) (topK : Nat) (labId : String) (rec : CandScores)
    (hmem : (labId, rec) ∈
      getCandidatesWithScores kw sw true un l1p labs query keywordRaw semRaw topK) :
    rec.combinedScore =
      (if rec.domainScore > 3/10 then rec.domainScore * (7/10) + rec.keywordScore * (3/10)
       else rec.keywordScore) * kw + rec.semanticScore * sw := by
  unfold getCandidatesWithScores at hmem
  dsimp only at hmem
  have h1 := List.mem_of_mem_take hmem
  have h2 := (List.mergeSort_perm _ _).mem_iff.mp h1
  have h3 := gcws_foldl_inv kw sw true un query _ _ _ labs (List.range labs.length) []
    (fun p hp => absurd hp (List.not_mem_nil p)) (labId, rec) h2
  simpa using h3

/-- Claim C10 (amended) — Stage-1 candidate generation on the empty-string query
raises no exception (the embedding is total), tokenizes the query to no terms
(so BM25 scores are all zero), and returns an empty top-K whenever every raw
semantic cosine lies below the 0.70 floor; a semantic score clearing the
floor can still produce a nonempty result (see the counterexample). -/
theorem claim_C10 :
    (∀ (kw sw : ℚ) (ud un : Bool) (l1p : ℚ → ℚ) (labs : List Lab)
      (keywordRaw semRaw : List ℚ) (topK : Nat), labs ≠ [] →
      (∀ x ∈ keywordRaw, x = 0) → (∀ s ∈ semRaw, s < 7/10) →
      getCandidatesWithScores kw sw ud un l1p labs "" keywordRaw semRaw topK = []) ∧
    tokenizeWithStopwords "" = [] := by
  refine ⟨?_, rfl⟩
  intro kw sw ud un l1p labs kR sR topK hlabs hk hs
  unfold getCandidatesWithScores
  dsimp only
  have hstep : ∀ (acc : List (String × CandScores)) (idx : Nat),
      gcwsStep kw sw ud un "" (normalizeKeywordScores l1p kR)
        (rescaleSemanticScores (7/10) sR)
        (labs.map (fun lab => if ud then keywordMatchScore "" (labSearchText lab) else 0))
        labs acc idx = acc := by
    intro acc idx
    unfold gcwsStep
    dsimp only
    rw [getD_zero (normalizeKeywordScores_zero l1p kR hk) idx,
      getD_zero (rescaleSemanticScores_low sR hs) idx,
      getD_zero (fun x hx => by
        obtain ⟨lab, _, rfl⟩ := List.mem_map.mp hx
        split_ifs
        exacts [keywordMatchScore_empty_query _, rfl]) idx]
    have heff : (if ud = true ∧ (0:ℚ) > 3/10 then (0:ℚ) * (7/10) + (0:ℚ) * (3/10) else 0)
        = 0 := by
      rw [if_neg (fun h => absurd h.2 (by norm_num))]
    rw [heff, show (0:ℚ) * kw + 0 * sw = 0 from by ring]
    split
    · rfl
    · rw [if_neg (by norm_num : ¬((0:ℚ) > 1/20))]
  have hres : ∀ (idxs : List Nat),
      idxs.foldl (gcwsStep kw sw ud un "" (normalizeKeywordScores l1p kR)
        (rescaleSemanticScores (7/10) sR)
        (labs.map (fun lab => if ud then keywordMatchScore "" (labSearchText lab) else 0))
        labs) [] = [] := by
    intro idxs
    induction idxs with
    | nil => rfl
    | cons i is ih => rw [List.foldl_cons, hstep]; exact ih
  rw [hres]
  simp [List.mergeSort]

/-- Counterexample for C1 as stated: on the query "deep learning" against a
lab whose text matches the AI/ML category with domain score 3/7 > 0.3, zero
normalized lexical score and rescaled semantic score 1/2, the pipeline
returns combined score 2/5 — the blend 0.7·(3/7)·0.5 + 0.5·0.5 — which is
not `max(domain, lexical) · 0.5 + semantic · 0.5 = 13/28`. -/
theorem claim_C1_counterexample :
    getCandidatesWithScores (1/2) (1/2) true true (fun x => x)
      [⟨"L1", "X", "", "deep learning neural network", "", ""⟩] "deep learning" [0] [4/5] 15 =
      [("L1", ⟨0, 1/2, 3/7, 2/5, ["keyword", "semantic"]⟩)] ∧
    (2/5 : ℚ) ≠ max (3/7) 0 * (1/2) + (1/2) * (1/2) := by
  constructor
  · unfold getCandidatesWithScores
    dsimp only
    have hkw : normalizeKeywordScores (fun x => x) [0] = [0] := by
      norm_num [normalizeKeywordScores, listMin, listMax]
    have hsem : rescaleSemanticScores (7/10) [4/5] = [1/2] := by
      norm_num [rescaleSemanticScores, listMin, listMax, List.filter]
    have hdomval : keywordMatchScore "deep learning"
        (labSearchText ⟨"L1", "X", "", "deep learning neural network", "", ""⟩) = 3/7 := by
      rw [keywordMatchScore_eq]
      rw [show matchedCategories "deep learning"
          (labSearchText ⟨"L1", "X", "", "deep learning neural network", "", ""⟩) =
        [("AI/ML", ["ai", "인공지능", "artificial intelligence", "machine learning", "머신러닝",
          "기계학습", "ml", "deep learning", "딥러닝", "심층학습", "dl", "neural network", "신경망",
          "deep neural"], 1)] from rfl]
      rw [if_neg (by simp)]
      unfold catRatioScore
      simp only [List.map_cons, List.map_nil, List.sum_cons, List.sum_nil,
        List.length_cons, List.length_nil]
      rw [show List.filter (fun t => strIn t (pyLower
          (labSearchText ⟨"L1", "X", "", "deep learning neural network", "", ""⟩)))
          ["ai", "인공지능", "artificial intelligence", "machine learning", "머신러닝",
           "기계학습", "ml", "deep learning", "딥러닝", "심층학습", "dl", "neural network", "신경망",
           "deep neural"] = ["deep learning", "neural network"] from rfl]
      norm_num
    have hdom : List.map (fun lab => if true = true then
          keywordMatchScore "deep learning" (labSearchText lab) else 0)
        [(⟨"L1", "X", "", "deep learning neural network", "", ""⟩ : Lab)] = [3/7] := by
      simp [hdomval]
    rw [hkw, hsem, hdom, List.length_singleton, show List.range 1 = [0] from rfl,
      List.foldl_cons, List.foldl_nil]
    unfold gcwsStep
    norm_num [List.getD]
    have hfil : filterIrrelevantLabs true "deep learning"
        (⟨"L1", "X", "", "deep learning neural network", "", ""⟩ : Lab) (2/5) = true := by
      unfold filterIrrelevantLabs
      rw [show getQueryCategories "deep learning" = ["AI/ML"] from rfl,
        show getLabCategories (labSearchText
          ⟨"L1", "X", "", "deep learning neural network", "", ""⟩) =
          ["AI/ML", "통신/네트워크"] from rfl]
      simp
    rw [hfil]
    norm_num [dictInsert, List.mergeSort_singleton]
  · rw [max_eq_left (by norm_num : (0:ℚ) ≤ 3/7)]
    norm_num

/-- Witness for C1: the amended formula holds of the record the pipeline
returns on a concrete run (semantic-only candidate). -/
theorem claim_C1_witness :
    ("W1", (⟨0, 1/2, 0, 1/4, ["semantic"]⟩ : CandScores)) ∈
      getCandidatesWithScores (1/2) (1/2) true true (fun x => x)
        [⟨"W1", "w", "", "w2", "", ""⟩] "" [0] [9/10] 15 ∧
    (⟨0, 1/2, 0, 1/4, ["semantic"]⟩ : CandScores).combinedScore =
      (if (⟨0, 1/2, 0, 1/4, ["semantic"]⟩ : CandScores).domainScore > 3/10 then
        (⟨0, 1/2, 0, 1/4, ["semantic"]⟩ : CandScores).domainScore * (7/10) +
          (⟨0, 1/2, 0, 1/4, ["semantic"]⟩ : CandScores).keywordScore * (3/10)
       else (⟨0, 1/2, 0, 1/4, ["semantic"]⟩ : CandScores).keywordScore) * (1/2) +
      (⟨0, 1/2, 0, 1/4, ["semantic"]⟩ : CandScores).semanticScore * (1/2) := by
  have hrun : getCandidatesWithScores (1/2) (1/2) true true (fun x => x)
      [⟨"W1", "w", "", "w2", "", ""⟩] "" [0] [9/10] 15 =
      [("W1", ⟨0, 1/2, 0, 1/4, ["semantic"]⟩)] := by
    unfold getCandidatesWithScores
    dsimp only
    have hkw : normalizeKeywordScores (fun x => x) [0] = [0] := by
      norm_num [normalizeKeywordScores, listMin, listMax]
    have hsem : rescaleSemanticScores (7/10) [9/10] = [1/2] := by
      norm_num [rescaleSemanticScores, listMin, listMax, List.filter]
    have hdom : List.map (fun lab => if true = true then
          keywordMatchScore "" (labSearchText lab) else 0)
        [(⟨"W1", "w", "", "w2", "", ""⟩ : Lab)] = [0] := by
      simp [keywordMatchScore_empty_query]
    rw [hkw, hsem, hdom, List.length_singleton, show List.range 1 = [0] from rfl,
      List.foldl_cons, List.foldl_nil]
    unfold gcwsStep
    norm_num [List.getD]
    have hfil : filterIrrelevantLabs true "" (⟨"W1", "w", "", "w2", "", ""⟩ : Lab) (1/4)
        = true := by
      unfold filterIrrelevantLabs
      rw [show getQueryCategories "" = ([] : List String) from rfl]
      simp
    rw [hfil]
    norm_num [dictInsert, List.mergeSort_singleton]
  have hmem : ("W1", (⟨0, 1/2, 0, 1/4, ["semantic"]⟩ : CandScores)) ∈
      getCandidatesWithScores (1/2) (1/2) true true (fun x => x)
        [⟨"W1", "w", "", "w2", "", ""⟩] "" [0] [9/10] 15 := by
    rw [hrun]
    exact List.mem_singleton.mpr rfl
  exact ⟨hmem, claim_C1 (1/2) (1/2) true (fun x => x) _ "" [0] [9/10] 15 _ _ hmem⟩

/-- Counterexample for C10 as stated: against a one-lab corpus with an
encoder giving the empty query a cosine of 1 against the lab text (a unit
vector pair is allowed to do this), stage 1 returns that lab — the semantic
floor rescales the lone surviving cosine to 0.5 and the combined score 0.25
clears the 0.05 floor — so the top-K is not empty. -/
theorem claim_C10_counterexample :
    getCandidatesWithScores (1/2) (1/2) true true (fun x => x)
      [⟨"L1", "a", "", "b", "", ""⟩] "" [0] [1] 15 =
      [("L1", ⟨0, 1/2, 0, 1/4, ["semantic"]⟩)] ∧
    ([("L1", (⟨0, 1/2, 0, 1/4, ["semantic"]⟩ : CandScores))] :
      List (String × CandScores)) ≠ [] := by
  constructor
  · unfold getCandidatesWithScores
    dsimp only
    have hkw : normalizeKeywordScores (fun x => x) [0] = [0] := by
      norm_num [normalizeKeywordScores, listMin, listMax]
    have hsem : rescaleSemanticScores (7/10) [1] = [1/2] := by
      norm_num [rescaleSemanticScores, listMin, listMax, List.filter]
    have hdom : List.map (fun lab => if true = true then
          keywordMatchScore "" (labSearchText lab) else 0)
        [(⟨"L1", "a", "", "b", "", ""⟩ : Lab)] = [0] := by
      simp [keywordMatchScore_empty_query]
    rw [hkw, hsem, hdom, List.length_singleton, show List.range 1 = [0] from rfl,
      List.foldl_cons, List.foldl_nil]
    unfold gcwsStep
    norm_num [List.getD]
    have hfil : filterIrrelevantLabs true "" (⟨"L1", "a", "", "b", "", ""⟩ : Lab) (1/4)
        = true := by
      unfold filterIrrelevantLabs
      rw [show getQueryCategories "" = ([] : List String) from rfl]
      simp
    rw [hfil]
    norm_num [dictInsert, List.mergeSort_singleton]
  · simp

/-- Witness for C10: the amended theorem applied to a concrete one-lab run
whose semantic cosine 1/2 is below the floor. -/
theorem claim_C10_witness :
    getCandidatesWithScores (1/2) (1/2) true true (fun x => x)
      [⟨"W2", "c", "", "d", "", ""⟩] "" [0] [1/2] 15 = [] :=
  claim_C10.1 (1/2) (1/2) true true (fun x => x) [⟨"W2", "c", "", "d", "", ""⟩]
    [0] [1/2] 15 (by simp) (by intro x hx; simpa using hx) (by intro s hs; simp at hs; norm_num [hs])

/-- Claim C4 — Stage-1 negative filtering: whenever the query's and the
candidate's matched-category sets are both nonempty and disjoint, the
candidate is dropped exactly when its combined score is below the override
threshold 0.8; in particular, in a full pipeline run a disjoint-category
candidate with combined score 0.6 is excluded from the top-K and one with
combined score 0.85 is included. -/
theorem claim_C4 :
    (∀ (query : String) (lab : Lab) (c : ℚ),
      getQueryCategories query ≠ [] → getLabCategories (labSearchText lab) ≠ [] →
      (∀ x ∈ getQueryCategories query, x ∉ getLabCategories (labSearchText lab)) →
      (filterIrrelevantLabs true query lab c = false ↔ c < 8/10)) ∧
    (getCandidatesWithScores (1/2) (1/2) true true (fun x => x)
      [⟨"R1", "r", "", "robot", "", ""⟩, ⟨"L2", "x", "", "y", "", ""⟩,
       ⟨"L3", "z", "", "w", "", ""⟩]
      "nlp" [2, 0, 1] [3/4, 7/10, 19/20] 15).map Prod.fst = ["L3"] ∧
    (getCandidatesWithScores (1/2) (1/2) true true (fun x => x)
      [⟨"R1", "r", "", "robot", "", ""⟩, ⟨"L2", "x", "", "y", "", ""⟩,
       ⟨"L3", "z", "", "w", "", ""⟩]
      "nlp" [2, 0, 1] [7/8, 7/10, 19/20] 15).map Prod.fst = ["R1", "L3"] := by
  refine ⟨?_, ?_, ?_⟩
  · intro query lab c hq hl hdisj
    unfold filterIrrelevantLabs
    dsimp only
    rw [if_neg (by decide), if_pos ⟨hq, hl⟩,
      if_pos (List.all_eq_true.mpr (fun x hx => decide_eq_true (hdisj x hx)))]
    split_ifs with h
    · simp [h]
    · simp [h]
  · unfold getCandidatesWithScores
    dsimp only
    have hkw : normalizeKeywordScores (fun x => x) [2, 0, 1] = [1, 0, 1/2] := by
      norm_num [normalizeKeywordScores, listMin, listMax, min_def, max_def]
    have hsem : rescaleSemanticScores (7/10) [3/4, 7/10, 19/20] = [1/5, 0, 1] := by
      norm_num [rescaleSemanticScores, listMin, listMax, min_def, max_def, List.filter]
      all_goals simp
    have hdom : List.map (fun lab => if true = true then
          keywordMatchScore "nlp" (labSearchText lab) else 0)
        [(⟨"R1", "r", "", "robot", "", ""⟩ : Lab), ⟨"L2", "x", "", "y", "", ""⟩,
         ⟨"L3", "z", "", "w", "", ""⟩] = [0, 0, 0] := by
      simp only [List.map_cons, List.map_nil, if_pos rfl]
      rw [keywordMatchScore_eq, keywordMatchScore_eq, keywordMatchScore_eq,
        show matchedCategories "nlp" (labSearchText ⟨"R1", "r", "", "robot", "", ""⟩) = []
          from rfl,
        show matchedCategories "nlp" (labSearchText ⟨"L2", "x", "", "y", "", ""⟩) = []
          from rfl,
        show matchedCategories "nlp" (labSearchText ⟨"L3", "z", "", "w", "", ""⟩) = []
          from rfl]
      simp
    rw [hkw, hsem, hdom, show ([(⟨"R1", "r", "", "robot", "", ""⟩ : Lab),
        ⟨"L2", "x", "", "y", "", ""⟩, ⟨"L3", "z", "", "w", "", ""⟩].length) = 3 from rfl,
      show List.range 3 = [0, 1, 2] from rfl, List.foldl_cons, List.foldl_cons,
      List.foldl_cons, List.foldl_nil]
    have h0 : gcwsStep (1/2) (1/2) true true "nlp" [1, 0, 1/2] [1/5, 0, 1] [0, 0, 0]
        [⟨"R1", "r", "", "robot", "", ""⟩, ⟨"L2", "x", "", "y", "", ""⟩,
         ⟨"L3", "z", "", "w", "", ""⟩] [] 0 = [] := by
      unfold gcwsStep
      norm_num [List.getD]
      rw [show filterIrrelevantLabs true "nlp" (⟨"R1", "r", "", "robot", "", ""⟩ : Lab) (3/5)
          = false from by
        unfold filterIrrelevantLabs
        dsimp only
        rw [if_neg (by decide), if_pos (by constructor <;> decide), if_pos (by decide),
          if_pos (by norm_num : (3:ℚ)/5 < 8/10)]]
      norm_num
    have h1 : gcwsStep (1/2) (1/2) true true "nlp" [1, 0, 1/2] [1/5, 0, 1] [0, 0, 0]
        [⟨"R1", "r", "", "robot", "", ""⟩, ⟨"L2", "x", "", "y", "", ""⟩,
         ⟨"L3", "z", "", "w", "", ""⟩] [] 1 = [] := by
      unfold gcwsStep
      norm_num [List.getD]
    have h2 : gcwsStep (1/2) (1/2) true true "nlp" [1, 0, 1/2] [1/5, 0, 1] [0, 0, 0]
        [⟨"R1", "r", "", "robot", "", ""⟩, ⟨"L2", "x", "", "y", "", ""⟩,
         ⟨"L3", "z", "", "w", "", ""⟩] [] 2 =
        [("L3", ⟨1/2, 1, 0, 3/4, ["keyword", "semantic"]⟩)] := by
      unfold gcwsStep
      norm_num [List.getD]
      rw [show filterIrrelevantLabs true "nlp" (⟨"L3", "z", "", "w", "", ""⟩ : Lab) (3/4)
          = true from by
        unfold filterIrrelevantLabs
        dsimp only
        rw [if_neg (by decide), if_neg (by decide)]]
      norm_num [dictInsert]
    rw [h0, h1, h2, List.mergeSort_singleton]
    rfl
  · unfold getCandidatesWithScores
    dsimp only
    have hkw : normalizeKeywordScores (fun x => x) [2, 0, 1] = [1, 0, 1/2] := by
      norm_num [normalizeKeywordScores, listMin, listMax, min_def, max_def]
    have hsem : rescaleSemanticScores (7/10) [7/8, 7/10, 19/20] = [7/10, 0, 1] := by
      norm_num [rescaleSemanticScores, listMin, listMax, min_def, max_def, List.filter]
      all_goals simp
    have hdom : List.map (fun lab => if true = true then
          keywordMatchScore "nlp" (labSearchText lab) else 0)
        [(⟨"R1", "r", "", "robot", "", ""⟩ : Lab), ⟨"L2", "x", "", "y", "", ""⟩,
         ⟨"L3", "z", "", "w", "", ""⟩] = [0, 0, 0] := by
      simp only [List.map_cons, List.map_nil, if_pos rfl]
      rw [keywordMatchScore_eq, keywordMatchScore_eq, keywordMatchScore_eq,
        show matchedCategories "nlp" (labSearchText ⟨"R1", "r", "", "robot", "", ""⟩) = []
          from rfl,
        show matchedCategories "nlp" (labSearchText ⟨"L2", "x", "", "y", "", ""⟩) = []
          from rfl,
        show matchedCategories "nlp" (labSearchText ⟨"L3", "z", "", "w", "", ""⟩) = []
          from rfl]
      simp
    rw [hkw, hsem, hdom, show ([(⟨"R1", "r", "", "robot", "", ""⟩ : Lab),
        ⟨"L2", "x", "", "y", "", ""⟩, ⟨"L3", "z", "", "w", "", ""⟩].length) = 3 from rfl,
      show List.range 3 = [0, 1, 2] from rfl, List.foldl_cons, List.foldl_cons,
      List.foldl_cons, List.foldl_nil]
    have h0 : gcwsStep (1/2) (1/2) true true "nlp" [1, 0, 1/2] [7/10, 0, 1] [0, 0, 0]
        [⟨"R1", "r", "", "robot", "", ""⟩, ⟨"L2", "x", "", "y", "", ""⟩,
         ⟨"L3", "z", "", "w", "", ""⟩] [] 0 =
        [("R1", ⟨1, 7/10, 0, 17/20, ["keyword", "semantic"]⟩)] := by
      unfold gcwsStep
      norm_num [List.getD]
      rw [show filterIrrelevantLabs true "nlp" (⟨"R1", "r", "", "robot", "", ""⟩ : Lab)
          (17/20) = true from by
        unfold filterIrrelevantLabs
        dsimp only
        rw [if_neg (by decide), if_pos (by constructor <;> decide), if_pos (by decide),
          if_neg (by norm_num : ¬((17:ℚ)/20 < 8/10))]]
      norm_num [dictInsert]
    have h1 : gcwsStep (1/2) (1/2) true true "nlp" [1, 0, 1/2] [7/10, 0, 1] [0, 0, 0]
        [⟨"R1", "r", "", "robot", "", ""⟩, ⟨"L2", "x", "", "y", "", ""⟩,
         ⟨"L3", "z", "", "w", "", ""⟩]
        [("R1", ⟨1, 7/10, 0, 17/20, ["keyword", "semantic"]⟩)] 1 =
        [("R1", ⟨1, 7/10, 0, 17/20, ["keyword", "semantic"]⟩)] := by
      unfold gcwsStep
      norm_num [List.getD]
    have h2 : gcwsStep (1/2) (1/2) true true "nlp" [1, 0, 1/2] [7/10, 0, 1] [0, 0, 0]
        [⟨"R1", "r", "", "robot", "", ""⟩, ⟨"L2", "x", "", "y", "", ""⟩,
         ⟨"L3", "z", "", "w", "", ""⟩]
        [("R1", ⟨1, 7/10, 0, 17/20, ["keyword", "semantic"]⟩)] 2 =
        [("R1", ⟨1, 7/10, 0, 17/20, ["keyword", "semantic"]⟩),
         ("L3", ⟨1/2, 1, 0, 3/4, ["keyword", "semantic"]⟩)] := by
      unfold gcwsStep
      norm_num [List.getD]
      rw [show filterIrrelevantLabs true "nlp" (⟨"L3", "z", "", "w", "", ""⟩ : Lab) (3/4)
          = true from by
        unfold filterIrrelevantLabs
        dsimp only
        rw [if_neg (by decide), if_neg (by decide)]]
      norm_num [dictInsert, List.any_cons]
      all_goals decide
    rw [h0, h1, h2]
    rw [List.mergeSort_of_sorted (by
      refine List.Pairwise.cons ?_ (List.Pairwise.cons
        (fun y hy => absurd hy (List.not_mem_nil y)) List.Pairwise.nil)
      intro y hy
      rw [List.mem_singleton] at hy
      subst hy
      simp only [decide_eq_true_eq]
      norm_num)]
    rfl

/-- Witness for C4: the general filtering rule applied to the query "nlp"
against the robot lab at combined score 0.6 (dropped). -/
theorem claim_C4_witness :
    filterIrrelevantLabs true "nlp" ⟨"R1", "r", "", "robot", "", ""⟩ (3/5) = false :=
  (claim_C4.1 "nlp" ⟨"R1", "r", "", "robot", "", ""⟩ (3/5) (by decide) (by decide)
    (by decide)).mpr (by norm_num)

/-- Claim C9 (amended) — In reranking (over the lab shape the scorer's body
expects), a present but unparseable numeric field value yields a sub-score of
0.0 via a measure result tagged `invalid_score` / `invalid_gpa`; a missing
(empty) profile field — numeric, narrative or categorical — leaves its
sub-score at 0.0 with no measure invoked and no tag recorded, even against a
lab whose sections are all empty (so the claim's rule "0.5 when the reference
side is also empty" fails for missing fields); and a nonempty certifications
field receives the untagged neutral default 0.5 whenever the lab-side
requirements section is empty. -/
theorem claim_C9 :
    (∀ (enc : EncoderModel) (lab : ScorerLab) (t : String), t ≠ "" → parseScore t = none →
      scoreLabBody defaultScorerConfig enc { toeicScore := t } lab =
        .ok { labId := lab.id, labName := lab.name } ∧
      langCalc t "800" = .ok ⟨0, "invalid_score"⟩) ∧
    (∀ (enc : EncoderModel) (lab : ScorerLab) (g : String), g ≠ "" → pyParseFloat g = none →
      scoreLabBody defaultScorerConfig enc { gpa := g } lab =
        .ok { labId := lab.id, labName := lab.name } ∧
      gpaCalcVal (7/2) g = .ok ⟨0, "invalid_gpa"⟩) ∧
    (∀ (enc : EncoderModel) (lab : ScorerLab) (certs : String), certs ≠ "" →
      pyDictGet lab.sections "requirements" "" = "" →
      scoreLabBody defaultScorerConfig enc { certifications := certs } lab =
        .ok { labId := lab.id, labName := lab.name, keywordScore := 1/8, certificationScore := 1/2, finalScore := 3/80 }) ∧
    (∀ (enc : EncoderModel) (lab : ScorerLab),
      scoreLabBody defaultScorerConfig enc {} lab =
        .ok { labId := lab.id, labName := lab.name }) := by
  refine ⟨?_, ?_, ?_, ?_⟩
  · intro enc lab t ht hparse
    have hl : langCalc t "800" = .ok ⟨0, "invalid_score"⟩ := by
      unfold langCalc
      rw [hparse, show parseScore "800" = some 800 from rfl]
      exact mkSimilarityResult_ok _ le_rfl (by norm_num)
    refine ⟨?_, hl⟩
    have elang : langSub defaultScorerConfig enc { toeicScore := t } lab = pure 0 := by
      unfold langSub
      rw [if_pos ht, hl]
      rfl
    unfold scoreLabBody
    rw [show intro1Sub defaultScorerConfig enc { toeicScore := t } lab = pure 0 from rfl,
      show intro2Sub defaultScorerConfig enc { toeicScore := t } lab = pure 0 from rfl,
      show intro3Sub defaultScorerConfig enc { toeicScore := t } lab = pure 0 from rfl,
      show portfolioSub defaultScorerConfig enc { toeicScore := t } lab = pure 0 from rfl,
      show majorSub defaultScorerConfig enc { toeicScore := t } lab = pure 0 from rfl,
      show certSub defaultScorerConfig enc { toeicScore := t } lab = pure 0 from rfl,
      show awardSub defaultScorerConfig enc { toeicScore := t } lab = pure 0 from rfl,
      show techSub defaultScorerConfig enc { toeicScore := t } lab = pure 0 from rfl,
      elang,
      show profSub defaultScorerConfig enc { toeicScore := t } lab = pure 0 from rfl,
      show gpaSub defaultScorerConfig enc { toeicScore := t } lab = pure 0 from rfl]
    simp only [pure_bind]
    norm_num [defaultScorerConfig]
    rfl
  · intro enc lab g hg hparse
    have hgp : gpaCalcVal (7/2) g = .ok ⟨0, "invalid_gpa"⟩ := by
      unfold gpaCalcVal
      rw [hparse]
      exact mkSimilarityResult_ok _ le_rfl (by norm_num)
    refine ⟨?_, hgp⟩
    have egpa : gpaSub defaultScorerConfig enc { gpa := g } lab = pure 0 := by
      unfold gpaSub
      rw [if_pos hg, show defaultScorerConfig.numeric.defaultExpectedGpa = 7/2 from rfl, hgp]
      rfl
    unfold scoreLabBody
    rw [show intro1Sub defaultScorerConfig enc { gpa := g } lab = pure 0 from rfl,
      show intro2Sub defaultScorerConfig enc { gpa := g } lab = pure 0 from rfl,
      show intro3Sub defaultScorerConfig enc { gpa := g } lab = pure 0 from rfl,
      show portfolioSub defaultScorerConfig enc { gpa := g } lab = pure 0 from rfl,
      show majorSub defaultScorerConfig enc { gpa := g } lab = pure 0 from rfl,
      show certSub defaultScorerConfig enc { gpa := g } lab = pure 0 from rfl,
      show awardSub defaultScorerConfig enc { gpa := g } lab = pure 0 from rfl,
      show techSub defaultScorerConfig enc { gpa := g } lab = pure 0 from rfl,
      show langSub defaultScorerConfig enc { gpa := g } lab = pure 0 from rfl,
      show profSub defaultScorerConfig enc { gpa := g } lab = pure 0 from rfl,
      egpa]
    simp only [pure_bind]
    norm_num [defaultScorerConfig]
    rfl
  · intro enc lab certs hc hreq
    have ecert : certSub defaultScorerConfig enc { certifications := certs } lab
        = pure (1/2) := by
      unfold certSub
      rw [if_pos hc, hreq, if_neg (by decide)]
    unfold scoreLabBody
    rw [show intro1Sub defaultScorerConfig enc { certifications := certs } lab = pure 0
        from rfl,
      show intro2Sub defaultScorerConfig enc { certifications := certs } lab = pure 0
        from rfl,
      show intro3Sub defaultScorerConfig enc { certifications := certs } lab = pure 0
        from rfl,
      show portfolioSub defaultScorerConfig enc { certifications := certs } lab = pure 0
        from rfl,
      show majorSub defaultScorerConfig enc { certifications := certs } lab = pure 0
        from rfl,
      ecert,
      show awardSub defaultScorerConfig enc { certifications := certs } lab = pure 0
        from rfl,
      show techSub defaultScorerConfig enc { certifications := certs } lab = pure 0
        from rfl,
      show langSub defaultScorerConfig enc { certifications := certs } lab = pure 0
        from rfl,
      show profSub defaultScorerConfig enc { certifications := certs } lab = pure 0
        from rfl,
      show gpaSub defaultScorerConfig enc { certifications := certs } lab = pure 0
        from rfl]
    simp only [pure_bind]
    norm_num [defaultScorerConfig]
    constructor <;> norm_num
  · intro enc lab
    unfold scoreLabBody
    rw [show intro1Sub defaultScorerConfig enc {} lab = pure 0 from rfl,
      show intro2Sub defaultScorerConfig enc {} lab = pure 0 from rfl,
      show intro3Sub defaultScorerConfig enc {} lab = pure 0 from rfl,
      show portfolioSub defaultScorerConfig enc {} lab = pure 0 from rfl,
      show majorSub defaultScorerConfig enc {} lab = pure 0 from rfl,
      show certSub defaultScorerConfig enc {} lab = pure 0 from rfl,
      show awardSub defaultScorerConfig enc {} lab = pure 0 from rfl,
      show techSub defaultScorerConfig enc {} lab = pure 0 from rfl,
      show langSub defaultScorerConfig enc {} lab = pure 0 from rfl,
      show profSub defaultScorerConfig enc {} lab = pure 0 from rfl,
      show gpaSub defaultScorerConfig enc {} lab = pure 0 from rfl]
    simp only [pure_bind]
    norm_num [defaultScorerConfig]
    rfl

/-- Witness for C9: the unparseable-TOEIC part at a concrete profile and a
concrete sectionless lab. -/
theorem claim_C9_witness :
    scoreLabBody defaultScorerConfig encZero { toeicScore := "N/A" }
      ⟨"LAB1", "lab one", "", []⟩ = .ok { labId := "LAB1", labName := "lab one" } ∧
    langCalc "N/A" "800" = .ok ⟨0, "invalid_score"⟩ :=
  claim_C9.1 encZero ⟨"LAB1", "lab one", "", []⟩ "N/A" (by decide) rfl

/-- Counterexample for C9 as stated: with the certifications field missing
and the lab-side requirements section also empty, the certification
sub-score is 0.0, not the claimed neutral default 0.5. -/
theorem claim_C9_counterexample :
    scoreLabBody defaultScorerConfig encZero {} ⟨"LAB2", "lab two", "", []⟩ =
      .ok { labId := "LAB2", labName := "lab two" } ∧
    ({ labId := "LAB2", labName := "lab two" } : RerankingScore).certificationScore = 0 ∧
    ((0 : ℚ) = 1/2) = False := by
  refine ⟨?_, rfl, by norm_num⟩
  unfold scoreLabBody
  rw [show intro1Sub defaultScorerConfig encZero {} ⟨"LAB2", "lab two", "", []⟩ = pure 0
      from rfl,
    show intro2Sub defaultScorerConfig encZero {} ⟨"LAB2", "lab two", "", []⟩ = pure 0
      from rfl,
    show intro3Sub defaultScorerConfig encZero {} ⟨"LAB2", "lab two", "", []⟩ = pure 0
      from rfl,
    show portfolioSub defaultScorerConfig encZero {} ⟨"LAB2", "lab two", "", []⟩ = pure 0
      from rfl,
    show majorSub defaultScorerConfig encZero {} ⟨"LAB2", "lab two", "", []⟩ = pure 0
      from rfl,
    show certSub defaultScorerConfig encZero {} ⟨"LAB2", "lab two", "", []⟩ = pure 0
      from rfl,
    show awardSub defaultScorerConfig encZero {} ⟨"LAB2", "lab two", "", []⟩ = pure 0
      from rfl,
    show techSub defaultScorerConfig encZero {} ⟨"LAB2", "lab two", "", []⟩ = pure 0
      from rfl,
    show langSub defaultScorerConfig encZero {} ⟨"LAB2", "lab two", "", []⟩ = pure 0
      from rfl,
    show profSub defaultScorerConfig encZero {} ⟨"LAB2", "lab two", "", []⟩ = pure 0
      from rfl,
    show gpaSub defaultScorerConfig encZero {} ⟨"LAB2", "lab two", "", []⟩ = pure 0
      from rfl]
  simp only [pure_bind]
  norm_num [defaultScorerConfig]
  rfl

end LabMate
